import Mathlib

/-!
# videotramite: the camera preview service and its UI controller

A shallow embedding of `src/azure-service.js` (class `AzureVideoService`) and of
`src/main.js` (the UI controller), followed by the properties proved about them.

Modelling conventions.

* The communication SDK is an external collaborator.  It is represented by an
  oracle `Sdk` that decides, from the history of SDK calls made so far, whether
  the next call throws and what the device enumeration returns.  Every SDK call
  the program makes is appended to a trace together with its outcome.
* A JavaScript method that mutates `this` and may throw becomes a function
  returning an `Outcome`: the value or the thrown error, the service after the
  call and the trace after the call.  Mutations made before a throw persist.
* An `async` function is run to completion; a rejected promise is an `error`
  result.
* `console.log` and `console.error` have no effect on the modelled state and are
  left out.
* A `classList` is the set of class tokens of the element; the order of the tokens in
  the `class` attribute is not modelled.
* An error thrown by the SDK is an object with a `name` and a `message`.
* Numbers are exact integers (array indices and lengths stay far below `2^53`).
-/

namespace VideoTramite

/-! ## Values crossing the SDK boundary -/

/-- A thrown JavaScript error object: its `name` and its `message`. -/
structure JsError where
  name : String
  message : String
deriving DecidableEq, Repr

/-- The expression `new Error(message)`. -/
def mkError (message : String) : JsError := ⟨"Error", message⟩

/-- A camera descriptor returned by `getCameras`. -/
structure VideoDeviceInfo where
  id : String
  name : String
deriving DecidableEq, Repr

/-- A microphone descriptor returned by `getMicrophones`. -/
structure AudioDeviceInfo where
  id : String
  name : String
deriving DecidableEq, Repr

/-- An instance of the SDK class `CallClient`, identified by its creation point. -/
structure CallClient where
  ref : Nat
deriving DecidableEq, Repr

/-- The device manager handed out by `getDeviceManager`. -/
structure DeviceManager where
  ref : Nat
deriving DecidableEq, Repr

/-- An instance of `LocalVideoStream`; `source` is the constructor argument, which is
`undefined` (`none`) when the camera index was out of range. -/
structure LocalVideoStream where
  ref : Nat
  source : Option VideoDeviceInfo
deriving DecidableEq, Repr

/-- An instance of `VideoStreamRenderer`, built from a local stream. -/
structure VideoStreamRenderer where
  ref : Nat
  stream : LocalVideoStream
deriving DecidableEq, Repr

/-- DOM nodes that are moved in and out of the video container. -/
inductive HtmlElement where
  | cameraOffPlaceholder
  | videoView (renderer : VideoStreamRenderer)
  | other (tag : String)
deriving DecidableEq, Repr

/-- The calls the program makes into the SDK. -/
inductive SdkCall where
  | newCallClient
  | getDeviceManager (client : CallClient)
  | askDevicePermission (manager : DeviceManager) (video audio : Bool)
  | getCameras (manager : DeviceManager)
  | getMicrophones (manager : DeviceManager)
  | newLocalVideoStream (source : Option VideoDeviceInfo)
  | newVideoStreamRenderer (stream : LocalVideoStream)
  | createView (renderer : VideoStreamRenderer)
  | disposeRenderer (renderer : VideoStreamRenderer)
  | disposeStream (stream : LocalVideoStream)
deriving DecidableEq, Repr

/-- One SDK call that was made, with the error it threw, if any. -/
structure SdkEvent where
  call : SdkCall
  threw : Option JsError
deriving DecidableEq, Repr

/-- The SDK calls made so far, oldest first. -/
abbrev Trace := List SdkEvent

/-- The behaviour of the SDK: given the calls made so far, whether the next call throws,
and what the device enumerations return. -/
structure Sdk where
  fault : Trace → SdkCall → Option JsError
  cameras : Trace → List VideoDeviceInfo
  microphones : Trace → List AudioDeviceInfo

/-- The object `{ cameras, microphones }`. -/
structure Devices where
  cameras : List VideoDeviceInfo
  microphones : List AudioDeviceInfo
deriving DecidableEq, Repr

/-! ## `azure-service.js` -/

/-- The fields of an `AzureVideoService` instance. -/
structure AzureVideoService where
  callClient : Option CallClient
  deviceManager : Option DeviceManager
  localVideoStream : Option LocalVideoStream
  videoStreamRenderer : Option VideoStreamRenderer
  availableCameras : List VideoDeviceInfo
  availableMicrophones : List AudioDeviceInfo
  isInitialized : Bool
deriving DecidableEq, Repr

/-- The result of running a method of the service. -/
structure Outcome (α : Type) where
  result : Except JsError α
  service : AzureVideoService
  trace : Trace

/-- The state set up by `constructor()`. -/
def AzureVideoService.fresh : AzureVideoService where
  callClient := none
  deviceManager := none
  localVideoStream := none
  videoStreamRenderer := none
  availableCameras := []
  availableMicrophones := []
  isInitialized := false

/-- A clause `catch (error) { throw new Error(prefix + error.message); }` applied to the
outcome of its `try` block. -/
def catchRethrow {α : Type} (pfx : String) (attempt : Outcome α) : Outcome α :=
  match attempt.result with
  | .error error => { attempt with result := .error (mkError (pfx ++ error.message)) }
  | .ok _ => attempt

/-- The `try` block of `initialize()`. -/
def initializeTry (sdk : Sdk) (s : AzureVideoService) (t : Trace) : Outcome Devices :=
  -- this.callClient = new CallClient();
  match sdk.fault t .newCallClient with
  | some e => ⟨.error e, s, t ++ [⟨.newCallClient, some e⟩]⟩
  | none =>
    let client : CallClient := ⟨t.length⟩
    let s1 := { s with callClient := some client }
    let t1 := t ++ [⟨.newCallClient, none⟩]
    -- this.deviceManager = await this.callClient.getDeviceManager();
    match sdk.fault t1 (.getDeviceManager client) with
    | some e => ⟨.error e, s1, t1 ++ [⟨.getDeviceManager client, some e⟩]⟩
    | none =>
      let manager : DeviceManager := ⟨t1.length⟩
      let s2 := { s1 with deviceManager := some manager }
      let t2 := t1 ++ [⟨.getDeviceManager client, none⟩]
      -- await this.deviceManager.askDevicePermission({ video: true, audio: true });
      match sdk.fault t2 (.askDevicePermission manager true true) with
      | some e => ⟨.error e, s2, t2 ++ [⟨.askDevicePermission manager true true, some e⟩]⟩
      | none =>
        let t3 := t2 ++ [⟨.askDevicePermission manager true true, none⟩]
        -- this.availableCameras = await this.deviceManager.getCameras();
        match sdk.fault t3 (.getCameras manager) with
        | some e => ⟨.error e, s2, t3 ++ [⟨.getCameras manager, some e⟩]⟩
        | none =>
          let s3 := { s2 with availableCameras := sdk.cameras t3 }
          let t4 := t3 ++ [⟨.getCameras manager, none⟩]
          -- this.availableMicrophones = await this.deviceManager.getMicrophones();
          match sdk.fault t4 (.getMicrophones manager) with
          | some e => ⟨.error e, s3, t4 ++ [⟨.getMicrophones manager, some e⟩]⟩
          | none =>
            let s4 := { s3 with availableMicrophones := sdk.microphones t4 }
            let t5 := t4 ++ [⟨.getMicrophones manager, none⟩]
            -- this.isInitialized = true;
            let s5 := { s4 with isInitialized := true }
            -- return { cameras: this.availableCameras, microphones: this.availableMicrophones };
            ⟨.ok ⟨s5.availableCameras, s5.availableMicrophones⟩, s5, t5⟩

/-- The method `initialize()` (that word is reserved in Lean): the `try` block under the
clause `catch (error) { throw new Error(`Error al inicializar: ${error.message}`); }`. -/
def initializeService (sdk : Sdk) (s : AzureVideoService) (t : Trace) : Outcome Devices :=
  catchRethrow "Error al inicializar: " (initializeTry sdk s t)

/-- The array access `array[index]`: `undefined` (`none`) outside the array. -/
def arrayGet {α : Type} (array : List α) (index : Int) : Option α :=
  if 0 ≤ index then array[index.toNat]? else none

/-- The `try` block of `startVideo(cameraIndex)`. -/
def startVideoTry (sdk : Sdk) (cameraIndex : Int) (s : AzureVideoService) (t : Trace) :
    Outcome HtmlElement :=
  -- const selectedCamera = this.availableCameras[cameraIndex];
  let selectedCamera := arrayGet s.availableCameras cameraIndex
  -- this.localVideoStream = new LocalVideoStream(selectedCamera);
  match sdk.fault t (.newLocalVideoStream selectedCamera) with
  | some e => ⟨.error e, s, t ++ [⟨.newLocalVideoStream selectedCamera, some e⟩]⟩
  | none =>
    let stream : LocalVideoStream := ⟨t.length, selectedCamera⟩
    let s1 := { s with localVideoStream := some stream }
    let t1 := t ++ [⟨.newLocalVideoStream selectedCamera, none⟩]
    -- this.videoStreamRenderer = new VideoStreamRenderer(this.localVideoStream);
    match sdk.fault t1 (.newVideoStreamRenderer stream) with
    | some e => ⟨.error e, s1, t1 ++ [⟨.newVideoStreamRenderer stream, some e⟩]⟩
    | none =>
      let renderer : VideoStreamRenderer := ⟨t1.length, stream⟩
      let s2 := { s1 with videoStreamRenderer := some renderer }
      let t2 := t1 ++ [⟨.newVideoStreamRenderer stream, none⟩]
      -- const view = await this.videoStreamRenderer.createView();
      match sdk.fault t2 (.createView renderer) with
      | some e => ⟨.error e, s2, t2 ++ [⟨.createView renderer, some e⟩]⟩
      | none =>
        -- return view.target;
        ⟨.ok (.videoView renderer), s2, t2 ++ [⟨.createView renderer, none⟩]⟩

/-- The method `startVideo(cameraIndex = 0)`: the two guards, then the `try` block with
its `catch` clause. -/
def startVideo (sdk : Sdk) (cameraIndex : Int) (s : AzureVideoService) (t : Trace) :
    Outcome HtmlElement :=
  if !s.isInitialized then
    ⟨.error (mkError "El servicio no está inicializado"), s, t⟩
  else if s.availableCameras.length = 0 then
    ⟨.error (mkError "No se encontró ninguna cámara"), s, t⟩
  else
    catchRethrow "Error al iniciar video: " (startVideoTry sdk cameraIndex s t)

/-- Second statement of the `try` block of `stopVideo()`:
`if (this.localVideoStream) { this.localVideoStream.dispose(); this.localVideoStream = null; }`. -/
def stopVideoStream (sdk : Sdk) (s : AzureVideoService) (t : Trace) : Outcome Unit :=
  match s.localVideoStream with
  | some stream =>
    match sdk.fault t (.disposeStream stream) with
    | some e => ⟨.error e, s, t ++ [⟨.disposeStream stream, some e⟩]⟩
    | none => ⟨.ok (), { s with localVideoStream := none }, t ++ [⟨.disposeStream stream, none⟩]⟩
  | none => ⟨.ok (), s, t⟩

/-- The `try` block of `stopVideo()`: its first statement,
`if (this.videoStreamRenderer) { this.videoStreamRenderer.dispose(); this.videoStreamRenderer = null; }`,
followed by the second. -/
def stopVideoTry (sdk : Sdk) (s : AzureVideoService) (t : Trace) : Outcome Unit :=
  match s.videoStreamRenderer with
  | some renderer =>
    match sdk.fault t (.disposeRenderer renderer) with
    | some e => ⟨.error e, s, t ++ [⟨.disposeRenderer renderer, some e⟩]⟩
    | none =>
      stopVideoStream sdk { s with videoStreamRenderer := none }
        (t ++ [⟨.disposeRenderer renderer, none⟩])
  | none => stopVideoStream sdk s t

/-- The method `stopVideo()`: the `try` block under the clause
`catch (error) { throw new Error(`Error al detener video: ${error.message}`); }`. -/
def stopVideo (sdk : Sdk) (s : AzureVideoService) (t : Trace) : Outcome Unit :=
  catchRethrow "Error al detener video: " (stopVideoTry sdk s t)

/-- The method `isVideoActive()`. -/
def isVideoActive (s : AzureVideoService) : Bool :=
  s.localVideoStream != none && s.videoStreamRenderer != none

/-- The method `getDevices()`. -/
def getDevices (s : AzureVideoService) : Devices :=
  ⟨s.availableCameras, s.availableMicrophones⟩

/-- Second statement of `cleanup()`:
`if (this.localVideoStream) { this.localVideoStream.dispose(); }`. -/
def cleanupStream (sdk : Sdk) (s : AzureVideoService) (t : Trace) : Outcome Unit :=
  match s.localVideoStream with
  | some stream =>
    match sdk.fault t (.disposeStream stream) with
    | some e => ⟨.error e, s, t ++ [⟨.disposeStream stream, some e⟩]⟩
    | none => ⟨.ok (), s, t ++ [⟨.disposeStream stream, none⟩]⟩
  | none => ⟨.ok (), s, t⟩

/-- The method `cleanup()`: its first statement,
`if (this.videoStreamRenderer) { this.videoStreamRenderer.dispose(); }`, followed by the
second.  There is no `try`: an error thrown by `dispose` leaves the method as it is. -/
def cleanup (sdk : Sdk) (s : AzureVideoService) (t : Trace) : Outcome Unit :=
  match s.videoStreamRenderer with
  | some renderer =>
    match sdk.fault t (.disposeRenderer renderer) with
    | some e => ⟨.error e, s, t ++ [⟨.disposeRenderer renderer, some e⟩]⟩
    | none => cleanupStream sdk s (t ++ [⟨.disposeRenderer renderer, none⟩])
  | none => cleanupStream sdk s t

/-! ## `main.js` -/

/-- An `option` element of the camera drop-down. -/
structure OptionElement where
  value : String
  textContent : String
deriving DecidableEq, Repr

/-- The `select` element `#cameraSelect`: its options and the position of the selected
one (`none` when no option is selected). -/
structure SelectElement where
  options : List OptionElement
  selectedIndex : Option Nat
deriving DecidableEq, Repr

/-- The property `select.value`: the value of the selected option, `""` without one. -/
def SelectElement.value (select : SelectElement) : String :=
  match select.selectedIndex with
  | some i =>
    match select.options[i]? with
    | some option => option.value
    | none => ""
  | none => ""

/-- The assignment `select.innerHTML = ''`. -/
def SelectElement.clear (_select : SelectElement) : SelectElement := ⟨[], none⟩

/-- The call `select.appendChild(option)`; a drop-down with no selected option selects
its first one. -/
def SelectElement.appendChild (select : SelectElement) (option : OptionElement) :
    SelectElement :=
  ⟨select.options ++ [option],
   match select.selectedIndex with
   | some i => some i
   | none => some 0⟩

/-- The callbacks handed to `setTimeout`. -/
inductive TimerHandler where
  | hideErrorMessage
deriving DecidableEq, Repr

/-- A pending `setTimeout(handler, delay)`. -/
structure Timeout where
  handler : TimerHandler
  delay : Nat
deriving DecidableEq, Repr

/-- The two flags of `main.js` and the state of the DOM elements it holds in `elements`.
A field named after an element and `ClassList` is its `classList`; `errorText`,
`cameraText`, `micText`, `cameraCount` and `micCount` are `textContent`; `cameraIcon`
and `micIcon` are `innerHTML`; `videoContainer` is the list of child nodes. -/
structure Ui where
  cameraOn : Bool
  micOn : Bool
  loadingClassList : Finset String
  errorMessageClassList : Finset String
  errorText : String
  videoContainer : List HtmlElement
  cameraBtnClassList : Finset String
  cameraBtnDisabled : Bool
  micBtnClassList : Finset String
  micBtnDisabled : Bool
  cameraText : String
  micText : String
  cameraIcon : String
  micIcon : String
  cameraSelectorClassList : Finset String
  cameraSelect : SelectElement
  deviceInfoClassList : Finset String
  cameraCount : String
  micCount : String
  timeouts : List Timeout
deriving DecidableEq

/-- The whole application: the page, the service instance `azureService`, and the SDK
calls made so far. -/
structure App where
  ui : Ui
  azureService : AzureVideoService
  trace : Trace
deriving DecidableEq

/-- The result of running an `async` function of `main.js` to completion: `error` is a
rejected promise. -/
structure Run where
  result : Except JsError Unit
  app : App

/-- The constant `icons.cameraOn`. -/
def icons.cameraOn : String :=
  "<path d=\"M17 10.5V7c0-.55-.45-1-1-1H4c-.55 0-1 .45-1 1v10c0 .55.45 1 1 1h12c.55 0 1-.45 1-1v-3.5l4 4v-11l-4 4z\"/>"

/-- The constant `icons.cameraOff`. -/
def icons.cameraOff : String :=
  "<path d=\"M21 6.5l-4 4V7c0-.55-.45-1-1-1H9.82L21 17.18V6.5zM3.27 2L2 3.27 4.73 6H4c-.55 0-1 .45-1 1v10c0 .55.45 1 1 1h12c.21 0 .39-.08.54-.18L19.73 21 21 19.73 3.27 2z\"/>"

/-- The constant `icons.micOn`. -/
def icons.micOn : String :=
  "<path d=\"M12 14c1.66 0 3-1.34 3-3V5c0-1.66-1.34-3-3-3S9 3.34 9 5v6c0 1.66 1.34 3 3 3z\"/><path d=\"M17 11c0 2.76-2.24 5-5 5s-5-2.24-5-5H5c0 3.53 2.61 6.43 6 6.92V21h2v-3.08c3.39-.49 6-3.39 6-6.92h-2z\"/>"

/-- The constant `icons.micOff`. -/
def icons.micOff : String :=
  "<path d=\"M19 11h-1.7c0 .74-.16 1.43-.43 2.05l1.23 1.23c.56-.98.9-2.09.9-3.28zm-4.02.17c0-.06.02-.11.02-.17V5c0-1.66-1.34-3-3-3S9 3.34 9 5v.18l5.98 5.99zM4.27 3L3 4.27l6.01 6.01V11c0 1.66 1.33 3 2.99 3 .22 0 .44-.03.65-.08l1.66 1.66c-.71.33-1.5.52-2.31.52-2.76 0-5.3-2.1-5.3-5.1H5c0 3.41 2.72 6.23 6 6.72V21h2v-3.28c.91-.13 1.77-.45 2.54-.9L19.73 21 21 19.73 4.27 3z\"/>"

/-! ### `parseInt` -/

/-- The characters `parseInt` skips at the start of its argument (white space and line
terminators of ECMAScript), by code point. -/
def isStrWhiteSpaceChar (c : Char) : Bool :=
  c.toNat ∈ [9, 10, 11, 12, 13, 32, 160, 5760, 8232, 8233, 8239, 8287, 12288, 65279]
    || (8192 ≤ c.toNat && c.toNat ≤ 8202)

/-- The value of a character as a digit, letters counting from ten. -/
def digitValue (c : Char) : Option Nat :=
  if 48 ≤ c.toNat ∧ c.toNat ≤ 57 then some (c.toNat - 48)
  else if 97 ≤ c.toNat ∧ c.toNat ≤ 122 then some (c.toNat - 97 + 10)
  else if 65 ≤ c.toNat ∧ c.toNat ≤ 90 then some (c.toNat - 65 + 10)
  else none

/-- The value of a character as a digit of the given radix, if it is one. -/
def radixDigit (radix : Nat) (c : Char) : Option Nat :=
  match digitValue c with
  | some d => if d < radix then some d else none
  | none => none

/-- The sign read by `parseInt`, and the text after it. -/
def stripSign (S : List Char) : Int × List Char :=
  match S with
  | c :: rest => if c = '-' then (-1, rest) else if c = '+' then (1, rest) else (1, S)
  | [] => (1, [])

/-- The radix chosen by `parseInt` without a radix argument (16 after `0x` or `0X`, else
10), and the text after the prefix. -/
def stripHexPrefix (S : List Char) : Nat × List Char :=
  match S with
  | c0 :: c1 :: rest => if c0 = '0' ∧ (c1 = 'x' ∨ c1 = 'X') then (16, rest) else (10, S)
  | _ => (10, S)

/-- The number written by a list of digits of the given radix. -/
def digitsValue (radix : Nat) (Z : List Char) : Nat :=
  Z.foldl (fun acc c => acc * radix + (radixDigit radix c).getD 0) 0

/-- The built-in `parseInt(string)`; `none` is `NaN`. -/
def parseInt (string : String) : Option Int :=
  let S := string.data.dropWhile isStrWhiteSpaceChar
  let (sign, S) := stripSign S
  let (R, S) := stripHexPrefix S
  let Z := S.takeWhile (fun c => (radixDigit R c).isSome)
  if Z = [] then none else some (sign * (digitsValue R Z : Int))

/-- The expression `number || 0`: `NaN` and zero give `0`. -/
def orZero (number : Option Int) : Int :=
  match number with
  | some n => n
  | none => 0

/-! ### The controller -/

/-- The function `showError(message)`. -/
def showError (message : String) (ui : Ui) : Ui :=
  { ui with
    errorText := message
    errorMessageClassList := ui.errorMessageClassList.erase "hidden"
    timeouts := ui.timeouts ++ [⟨.hideErrorMessage, 5000⟩] }

/-- The callback of the timer set by `showError`. -/
def hideErrorMessage (ui : Ui) : Ui :=
  { ui with errorMessageClassList := insert "hidden" ui.errorMessageClassList }

/-- The function `updateDeviceInfo(devices)`. -/
def updateDeviceInfo (devices : Devices) (ui : Ui) : Ui :=
  { ui with
    cameraCount := toString devices.cameras.length
    micCount := toString devices.microphones.length }

/-- The `option` built by the callback of `cameras.forEach` in `setupCameraSelector`. -/
def cameraOption (index : Nat) (camera : VideoDeviceInfo) : OptionElement where
  value := toString index
  textContent := if camera.name ≠ "" then camera.name else "Cámara " ++ toString (index + 1)

/-- The function `setupCameraSelector(cameras)`. -/
def setupCameraSelector (cameras : List VideoDeviceInfo) (ui : Ui) : Ui :=
  if cameras.length > 1 then
    let ui1 := { ui with cameraSelect := ui.cameraSelect.clear }
    let ui2 := cameras.enum.foldl
      (fun acc entry =>
        { acc with cameraSelect := acc.cameraSelect.appendChild (cameraOption entry.1 entry.2) })
      ui1
    { ui2 with cameraSelectorClassList := ui2.cameraSelectorClassList.erase "hidden" }
  else ui

/-- The function `init()`. -/
def init (sdk : Sdk) (app : App) : Run :=
  match initializeService sdk app.azureService app.trace with
  | ⟨.ok devices, service, trace⟩ =>
    let ui1 := updateDeviceInfo devices app.ui
    let ui2 := setupCameraSelector devices.cameras ui1
    let ui3 := { ui2 with
      cameraBtnDisabled := devices.cameras.length == 0
      micBtnDisabled := devices.microphones.length == 0 }
    let ui4 := { ui3 with
      loadingClassList := insert "hidden" ui3.loadingClassList
      deviceInfoClassList := ui3.deviceInfoClassList.erase "hidden" }
    ⟨.ok (), ui4, service, trace⟩
  | ⟨.error error, service, trace⟩ =>
    let ui1 := showError error.message app.ui
    ⟨.ok (), { ui1 with loadingClassList := insert "hidden" ui1.loadingClassList }, service, trace⟩

/-- The function `startCamera()`. -/
def startCamera (sdk : Sdk) (app : App) : Run :=
  let cameraIndex := orZero (parseInt app.ui.cameraSelect.value)
  match startVideo sdk cameraIndex app.azureService app.trace with
  | ⟨.error error, service, trace⟩ => ⟨.error error, app.ui, service, trace⟩
  | ⟨.ok videoElement, service, trace⟩ =>
    ⟨.ok (),
     { app.ui with
       videoContainer := [] ++ [videoElement]
       cameraOn := true
       cameraBtnClassList := insert "active" app.ui.cameraBtnClassList
       cameraText := "Apagar Cámara"
       cameraIcon := icons.cameraOff },
     service, trace⟩

/-- The function `stopCamera()`. -/
def stopCamera (sdk : Sdk) (app : App) : Run :=
  match stopVideo sdk app.azureService app.trace with
  | ⟨.error error, service, trace⟩ => ⟨.error error, app.ui, service, trace⟩
  | ⟨.ok (), service, trace⟩ =>
    ⟨.ok (),
     { app.ui with
       videoContainer := [] ++ [HtmlElement.cameraOffPlaceholder]
       cameraOn := false
       cameraBtnClassList := app.ui.cameraBtnClassList.erase "active"
       cameraText := "Encender Cámara"
       cameraIcon := icons.cameraOn },
     service, trace⟩

/-- The function `toggleCamera()`. -/
def toggleCamera (sdk : Sdk) (app : App) : Run :=
  let attempt := if !app.ui.cameraOn then startCamera sdk app else stopCamera sdk app
  match attempt with
  | ⟨.error error, app1⟩ => ⟨.ok (), { app1 with ui := showError error.message app1.ui }⟩
  | ⟨.ok (), app1⟩ => ⟨.ok (), app1⟩

/-- The function `handleCameraChange()`. -/
def handleCameraChange (sdk : Sdk) (app : App) : Run :=
  if app.ui.cameraOn then
    match stopCamera sdk app with
    | ⟨.error error, app1⟩ => ⟨.error error, app1⟩
    | ⟨.ok (), app1⟩ => startCamera sdk app1
  else ⟨.ok (), app⟩

/-- The function `toggleMicrophone()`. -/
def toggleMicrophone (ui : Ui) : Ui :=
  let ui1 := { ui with micOn := !ui.micOn }
  if ui1.micOn then
    { ui1 with
      micBtnClassList := insert "active" ui1.micBtnClassList
      micText := "Apagar Micrófono"
      micIcon := icons.micOff }
  else
    { ui1 with
      micBtnClassList := ui1.micBtnClassList.erase "active"
      micText := "Encender Micrófono"
      micIcon := icons.micOn }

/-- The listener of `beforeunload`. -/
def beforeUnload (sdk : Sdk) (app : App) : Run :=
  match cleanup sdk app.azureService app.trace with
  | ⟨result, service, trace⟩ => ⟨result, app.ui, service, trace⟩

/-- The user events the page listens to; a change of the drop-down carries the position
of the option the user picked. -/
inductive UiEvent where
  | cameraBtnClick
  | micBtnClick
  | cameraSelectChange (picked : Nat)
deriving DecidableEq, Repr

/-- The browser's part of a `change` event: the picked option becomes the selected one. -/
def pickOption (picked : Nat) (ui : Ui) : Ui :=
  if picked < ui.cameraSelect.options.length then
    { ui with cameraSelect := { ui.cameraSelect with selectedIndex := some picked } }
  else ui

/-- The listeners registered with `addEventListener`, each run to completion. -/
def dispatch (sdk : Sdk) (event : UiEvent) (app : App) : Run :=
  match event with
  | .cameraBtnClick => toggleCamera sdk app
  | .micBtnClick => ⟨.ok (), { app with ui := toggleMicrophone app.ui }⟩
  | .cameraSelectChange picked =>
    handleCameraChange sdk { app with ui := pickOption picked app.ui }

/-- The state after a sequence of events, each handled to completion before the next. -/
def runEvents (sdk : Sdk) (events : List UiEvent) (app : App) : App :=
  events.foldl (fun acc event => (dispatch sdk event acc).app) app

/-! ## Vocabulary of the statements -/

/-- The SDK calls made while an operation took the trace from `before` to `after`. -/
def callsDuring (before after : Trace) : List SdkEvent := after.drop before.length

/-- An operation run from trace `t` is fail-fast: it only adds calls to the trace, no call
but the last one threw, and it ends in an error exactly when the last call threw it. -/
def FailFast {α : Type} (t : Trace) (o : Outcome α) : Prop :=
  o.trace = t ++ callsDuring t o.trace ∧
  (∀ ev ∈ (callsDuring t o.trace).dropLast, ev.threw = none) ∧
  (∀ e, o.result = .error e ↔ ∃ c, (callsDuring t o.trace).getLast? = some ⟨c, some e⟩)

/-- The five SDK calls of `initialize()`, in program order, for a run that starts after
`n` earlier calls. -/
def initializeCalls (n : Nat) : List SdkCall :=
  [.newCallClient, .getDeviceManager ⟨n⟩, .askDevicePermission ⟨n + 1⟩ true true,
   .getCameras ⟨n + 1⟩, .getMicrophones ⟨n + 1⟩]

/-- An SDK in which no call throws and the enumerations return the given devices. -/
def Sdk.working (cameras : List VideoDeviceInfo) (microphones : List AudioDeviceInfo) : Sdk where
  fault := fun _ _ => none
  cameras := fun _ => cameras
  microphones := fun _ => microphones

/-- An SDK in which the calls selected by `fails` throw `e` and the others succeed. -/
def Sdk.failing (fails : SdkCall → Bool) (e : JsError) (cameras : List VideoDeviceInfo)
    (microphones : List AudioDeviceInfo) : Sdk where
  fault := fun _ c => if fails c then some e else none
  cameras := fun _ => cameras
  microphones := fun _ => microphones

/-- Whether a call is `askDevicePermission`. -/
def SdkCall.isAskDevicePermission : SdkCall → Bool
  | .askDevicePermission _ _ _ => true
  | _ => false

/-- Whether a call is `createView`. -/
def SdkCall.isCreateView : SdkCall → Bool
  | .createView _ => true
  | _ => false

/-- Whether a call is the `dispose` of a renderer. -/
def SdkCall.isDisposeRenderer : SdkCall → Bool
  | .disposeRenderer _ => true
  | _ => false

/-- A sample error thrown by the SDK. -/
def sampleError : JsError := ⟨"CommunicationServicesError", "Permission denied"⟩

/-- Two sample cameras, the second without a name. -/
def sampleCameras : List VideoDeviceInfo := [⟨"cam-0", "Integrated Webcam"⟩, ⟨"cam-1", ""⟩]

/-- One sample microphone. -/
def sampleMicrophones : List AudioDeviceInfo := [⟨"mic-0", "Built-in Microphone"⟩]

/-- A page before any interaction: both flags off, the error banner and the camera
drop-down hidden, the placeholder in the video container. -/
def samplePage : Ui where
  cameraOn := false
  micOn := false
  loadingClassList := ∅
  errorMessageClassList := {"hidden"}
  errorText := ""
  videoContainer := [.cameraOffPlaceholder]
  cameraBtnClassList := ∅
  cameraBtnDisabled := false
  micBtnClassList := ∅
  micBtnDisabled := false
  cameraText := "Encender Cámara"
  micText := "Encender Micrófono"
  cameraIcon := icons.cameraOn
  micIcon := icons.micOn
  cameraSelectorClassList := {"hidden"}
  cameraSelect := ⟨[], none⟩
  deviceInfoClassList := {"hidden"}
  cameraCount := "0"
  micCount := "0"
  timeouts := []

/-- How many times `call` occurs in a list of SDK events. -/
def timesCalled (call : SdkCall) (events : List SdkEvent) : Nat :=
  (events.filter (fun ev => ev.call = call)).length

/-- What is said of one run of `cleanup()` from service `s` and trace `t`: `dispose` is
called exactly once on the held renderer and exactly once on the held stream, no SDK
call is made when neither is held, and no field of the service changes. -/
def CleanupDisposesHeld (sdk : Sdk) (s : AzureVideoService) (t : Trace) : Prop :=
  (∀ renderer, s.videoStreamRenderer = some renderer →
    timesCalled (.disposeRenderer renderer) (callsDuring t (cleanup sdk s t).trace) = 1) ∧
  (∀ stream, s.localVideoStream = some stream →
    timesCalled (.disposeStream stream) (callsDuring t (cleanup sdk s t).trace) = 1) ∧
  (s.videoStreamRenderer = none → s.localVideoStream = none →
    callsDuring t (cleanup sdk s t).trace = []) ∧
  (cleanup sdk s t).service = s ∧
  isVideoActive (cleanup sdk s t).service = isVideoActive s ∧
  getDevices (cleanup sdk s t).service = getDevices s

/-- An SDK that finds the sample devices and in which only the `dispose` of a renderer
throws. -/
def brokenDisposeSdk : Sdk :=
  Sdk.failing SdkCall.isDisposeRenderer sampleError sampleCameras sampleMicrophones

/-- The run `initialize()` then `startVideo(0)` on a new service. -/
def previewRun (sdk : Sdk) : Outcome HtmlElement :=
  startVideo sdk 0 (initializeService sdk AzureVideoService.fresh []).service
    (initializeService sdk AzureVideoService.fresh []).trace

/-- A character is one of the decimal digits `0` to `9`. -/
def IsDecimalDigit (c : Char) : Prop := 48 ≤ c.toNat ∧ c.toNat ≤ 57

/-- In this SDK no `dispose` call ever throws. -/
def Sdk.DisposeNeverThrows (sdk : Sdk) : Prop :=
  ∀ t, (∀ renderer, sdk.fault t (.disposeRenderer renderer) = none) ∧
    (∀ stream, sdk.fault t (.disposeStream stream) = none)

/-- An SDK that finds the sample devices and in which `createView` throws once eight or
more calls have been made, that is from the second preview on. -/
def flakySdk : Sdk where
  fault := fun t c => if 8 ≤ t.length && c.isCreateView then some sampleError else none
  cameras := fun _ => sampleCameras
  microphones := fun _ => sampleMicrophones

/-- The application when the script starts: the sample page and a new service. -/
def startApp : App := ⟨samplePage, AzureVideoService.fresh, []⟩

/-- The application after `init()` once the user picked the second option of the camera
drop-down. -/
def pickedSecondCamera (sdk : Sdk) : App :=
  { (init sdk startApp).app with ui := pickOption 1 (init sdk startApp).app.ui }

/-- The application after `init()` and one click on the camera button. -/
def previewSession (sdk : Sdk) : App :=
  runEvents sdk [.cameraBtnClick] (init sdk startApp).app

/-! ## Properties of the service -/

theorem callsDuring_append (t l : Trace) : callsDuring t (t ++ l) = l := by
  simp [callsDuring]

theorem callsDuring_self (t : Trace) : callsDuring t t = [] := by
  simp [callsDuring]

theorem mkError_append_ne (p : String) (e : JsError) (hp : 0 < p.length) :
    mkError (p ++ e.message) ≠ e := by
  intro h
  have hm := congrArg (fun x => x.message.length) h
  simp only [mkError, String.length_append] at hm
  omega

theorem catchRethrow_trace {α : Type} (p : String) (o : Outcome α) :
    (catchRethrow p o).trace = o.trace := by
  unfold catchRethrow; split <;> rfl

theorem catchRethrow_service {α : Type} (p : String) (o : Outcome α) :
    (catchRethrow p o).service = o.service := by
  unfold catchRethrow; split <;> rfl

theorem catchRethrow_error {α : Type} (p : String) (o : Outcome α) (e : JsError)
    (h : o.result = .error e) :
    (catchRethrow p o).result = .error (mkError (p ++ e.message)) := by
  unfold catchRethrow; simp [h]

theorem catchRethrow_ok {α : Type} (p : String) (o : Outcome α) (a : α)
    (h : o.result = .ok a) : catchRethrow p o = o := by
  unfold catchRethrow; simp [h]

theorem catchRethrow_result_error {α : Type} (p : String) (o : Outcome α) (e : JsError)
    (h : (catchRethrow p o).result = .error e) : ∃ e0, o.result = .error e0 := by
  cases hr : o.result with
  | error e0 => exact ⟨e0, rfl⟩
  | ok a => rw [catchRethrow_ok p o a hr, hr] at h; simp at h

theorem initializeTry_failFast (sdk : Sdk) (s : AzureVideoService) (t : Trace) :
    FailFast t (initializeTry sdk s t) := by
  unfold initializeTry
  dsimp only
  repeat' split
  all_goals simp [FailFast, List.append_assoc, callsDuring_append]

theorem startVideoTry_failFast (sdk : Sdk) (i : Int) (s : AzureVideoService) (t : Trace) :
    FailFast t (startVideoTry sdk i s t) := by
  unfold startVideoTry
  dsimp only
  repeat' split
  all_goals simp [FailFast, List.append_assoc, callsDuring_append]

theorem stopVideoTry_failFast (sdk : Sdk) (s : AzureVideoService) (t : Trace) :
    FailFast t (stopVideoTry sdk s t) := by
  unfold stopVideoTry stopVideoStream
  dsimp only
  repeat' split
  all_goals simp_all [FailFast, List.append_assoc, callsDuring_append, callsDuring_self]

theorem mem_dropLast_or_getLast {α : Type} (l : List α) (x : α) (h : x ∈ l) :
    x ∈ l.dropLast ∨ l.getLast? = some x := by
  rcases List.eq_nil_or_concat l with rfl | ⟨l', a, rfl⟩
  · simp at h
  · simp only [List.concat_eq_append, List.mem_append, List.mem_singleton] at h
    rw [List.concat_eq_append, List.dropLast_concat, List.getLast?_concat]
    rcases h with h | h
    · exact Or.inl h
    · exact Or.inr (by rw [h])

/-- In a fail-fast operation a call that threw is the last call, and its error is the
result. -/
theorem FailFast.threw {α : Type} {t : Trace} {o : Outcome α} (h : FailFast t o)
    (c : SdkCall) (e : JsError) (hm : ⟨c, some e⟩ ∈ callsDuring t o.trace) :
    (callsDuring t o.trace).getLast? = some ⟨c, some e⟩ ∧ o.result = .error e := by
  obtain ⟨-, h2, h3⟩ := h
  rcases mem_dropLast_or_getLast _ _ hm with hd | hl
  · have := h2 _ hd
    simp at this
  · exact ⟨hl, (h3 e).2 ⟨c, hl⟩⟩

theorem catchRethrow_threw {α : Type} {t : Trace} {o : Outcome α} (h : FailFast t o)
    (p : String) (hp : 0 < p.length) (c : SdkCall) (e : JsError)
    (hm : ⟨c, some e⟩ ∈ callsDuring t (catchRethrow p o).trace) :
    (catchRethrow p o).result = .error (mkError (p ++ e.message)) ∧
      mkError (p ++ e.message) ≠ e := by
  rw [catchRethrow_trace] at hm
  exact ⟨catchRethrow_error p o e (h.threw c e hm).2, mkError_append_ne p e hp⟩

/-- C1. Whenever an SDK call made by `initialize`, `startVideo` or `stopVideo` throws an
error `e`, the operation ends by throwing `new Error(prefix + e.message)` with its own
Spanish prefix, and the error it throws is not the original one. -/
theorem sdk_failure_is_rethrown_wrapped (sdk : Sdk) (s : AzureVideoService) (t : Trace)
    (cameraIndex : Int) (c : SdkCall) (e : JsError) :
    (⟨c, some e⟩ ∈ callsDuring t (initializeService sdk s t).trace →
      (initializeService sdk s t).result
          = .error (mkError ("Error al inicializar: " ++ e.message)) ∧
        mkError ("Error al inicializar: " ++ e.message) ≠ e) ∧
    (⟨c, some e⟩ ∈ callsDuring t (startVideo sdk cameraIndex s t).trace →
      (startVideo sdk cameraIndex s t).result
          = .error (mkError ("Error al iniciar video: " ++ e.message)) ∧
        mkError ("Error al iniciar video: " ++ e.message) ≠ e) ∧
    (⟨c, some e⟩ ∈ callsDuring t (stopVideo sdk s t).trace →
      (stopVideo sdk s t).result
          = .error (mkError ("Error al detener video: " ++ e.message)) ∧
        mkError ("Error al detener video: " ++ e.message) ≠ e) := by
  refine ⟨?_, ?_, ?_⟩
  · exact catchRethrow_threw (initializeTry_failFast sdk s t) _ (by decide) c e
  · unfold startVideo
    split
    · simp [callsDuring_self]
    · split
      · simp [callsDuring_self]
      · exact catchRethrow_threw (startVideoTry_failFast sdk cameraIndex s t) _
          (by decide) c e
  · exact catchRethrow_threw (stopVideoTry_failFast sdk s t) _ (by decide) c e

/-- C1, at a concrete run: on a new service, with an SDK whose `askDevicePermission`
throws "Permission denied", `initialize()` throws
`new Error("Error al inicializar: Permission denied")`. -/
theorem sdk_failure_is_rethrown_wrapped_witness :
    (⟨.askDevicePermission ⟨1⟩ true true, some sampleError⟩ ∈
      callsDuring [] (initializeService
        (Sdk.failing SdkCall.isAskDevicePermission sampleError [] [])
        AzureVideoService.fresh []).trace) ∧
    (initializeService (Sdk.failing SdkCall.isAskDevicePermission sampleError [] [])
        AzureVideoService.fresh []).result
      = .error (mkError ("Error al inicializar: " ++ sampleError.message)) :=
  have h : (⟨.askDevicePermission ⟨1⟩ true true, some sampleError⟩ : SdkEvent) ∈
      callsDuring [] (initializeService
        (Sdk.failing SdkCall.isAskDevicePermission sampleError [] [])
        AzureVideoService.fresh []).trace := by decide
  ⟨h, ((sdk_failure_is_rethrown_wrapped _ _ _ 0 _ _).1 h).1⟩

theorem startVideoTry_ok (sdk : Sdk) (i : Int) (s : AzureVideoService) (t : Trace)
    (target : HtmlElement) (h : (startVideoTry sdk i s t).result = .ok target) :
    startVideoTry sdk i s t =
      ⟨.ok (.videoView ⟨t.length + 1, ⟨t.length, arrayGet s.availableCameras i⟩⟩),
       { s with
         localVideoStream := some ⟨t.length, arrayGet s.availableCameras i⟩
         videoStreamRenderer :=
           some ⟨t.length + 1, ⟨t.length, arrayGet s.availableCameras i⟩⟩ },
       t ++ [⟨.newLocalVideoStream (arrayGet s.availableCameras i), none⟩,
             ⟨.newVideoStreamRenderer ⟨t.length, arrayGet s.availableCameras i⟩, none⟩,
             ⟨.createView ⟨t.length + 1, ⟨t.length, arrayGet s.availableCameras i⟩⟩,
               none⟩]⟩ := by
  revert h
  unfold startVideoTry
  dsimp only
  repeat' split
  all_goals simp

/-- A successful `startVideo` ran on an initialized service with a camera, made the three
SDK calls without a throw, and holds the stream and the renderer it created. -/
theorem startVideo_ok (sdk : Sdk) (i : Int) (s : AzureVideoService) (t : Trace)
    (target : HtmlElement) (h : (startVideo sdk i s t).result = .ok target) :
    s.isInitialized = true ∧ s.availableCameras ≠ [] ∧
    startVideo sdk i s t =
      ⟨.ok (.videoView ⟨t.length + 1, ⟨t.length, arrayGet s.availableCameras i⟩⟩),
       { s with
         localVideoStream := some ⟨t.length, arrayGet s.availableCameras i⟩
         videoStreamRenderer :=
           some ⟨t.length + 1, ⟨t.length, arrayGet s.availableCameras i⟩⟩ },
       t ++ [⟨.newLocalVideoStream (arrayGet s.availableCameras i), none⟩,
             ⟨.newVideoStreamRenderer ⟨t.length, arrayGet s.availableCameras i⟩, none⟩,
             ⟨.createView ⟨t.length + 1, ⟨t.length, arrayGet s.availableCameras i⟩⟩,
               none⟩]⟩ := by
  unfold startVideo at h ⊢
  split at h
  · simp at h
  · rename_i h1
    split at h
    · simp at h
    · rename_i h2
      rw [if_neg h1, if_neg h2]
      cases hr : (startVideoTry sdk i s t).result with
      | error e => rw [catchRethrow_error _ _ e hr] at h; simp at h
      | ok a =>
        rw [catchRethrow_ok _ _ a hr]
        refine ⟨by simpa using h1, ?_, startVideoTry_ok sdk i s t a hr⟩
        intro hnil; simp [hnil] at h2

theorem stopVideo_of_no_throw (sdk : Sdk) (s : AzureVideoService) (t : Trace)
    (stream : LocalVideoStream) (renderer : VideoStreamRenderer)
    (hs : s.localVideoStream = some stream) (hr : s.videoStreamRenderer = some renderer)
    (h : ∀ ev ∈ callsDuring t (stopVideo sdk s t).trace, ev.threw = none) :
    stopVideo sdk s t =
      ⟨.ok (), { s with localVideoStream := none, videoStreamRenderer := none },
       t ++ [⟨.disposeRenderer renderer, none⟩, ⟨.disposeStream stream, none⟩]⟩ := by
  revert h
  unfold stopVideo
  rw [catchRethrow_trace]
  unfold stopVideoTry stopVideoStream
  simp only [hs, hr]
  repeat' split
  all_goals simp [callsDuring_append, catchRethrow]

theorem stopVideo_idle (sdk : Sdk) (s : AzureVideoService) (t : Trace)
    (hs : s.localVideoStream = none) (hr : s.videoStreamRenderer = none) :
    stopVideo sdk s t = ⟨.ok (), s, t⟩ := by
  simp [stopVideo, stopVideoTry, stopVideoStream, hs, hr, catchRethrow]

/-- C4. When `startVideo` succeeds the service holds the stream and the renderer that
this call created and `isVideoActive()` is true.  If `stopVideo` is called next and no
call it makes throws, the calls it makes are exactly one `dispose` of that renderer and
one `dispose` of that stream, both references become null and `isVideoActive()` is
false.  `stopVideo` on a service that holds no handle makes no SDK call and leaves
`isVideoActive()` false. -/
theorem startVideo_stopVideo_lifecycle (sdk : Sdk) :
    (∀ (s : AzureVideoService) (t : Trace) (cameraIndex : Int) (target : HtmlElement),
      (startVideo sdk cameraIndex s t).result = .ok target →
      ∃ stream renderer,
        stream = (⟨t.length, arrayGet s.availableCameras cameraIndex⟩ : LocalVideoStream) ∧
        renderer = (⟨t.length + 1, stream⟩ : VideoStreamRenderer) ∧
        (startVideo sdk cameraIndex s t).service.localVideoStream = some stream ∧
        (startVideo sdk cameraIndex s t).service.videoStreamRenderer = some renderer ∧
        isVideoActive (startVideo sdk cameraIndex s t).service = true ∧
        callsDuring t (startVideo sdk cameraIndex s t).trace =
          [⟨.newLocalVideoStream stream.source, none⟩,
           ⟨.newVideoStreamRenderer stream, none⟩, ⟨.createView renderer, none⟩] ∧
        ((∀ ev ∈ callsDuring (startVideo sdk cameraIndex s t).trace
              (stopVideo sdk (startVideo sdk cameraIndex s t).service
                (startVideo sdk cameraIndex s t).trace).trace, ev.threw = none) →
          (stopVideo sdk (startVideo sdk cameraIndex s t).service
              (startVideo sdk cameraIndex s t).trace).result = .ok () ∧
          callsDuring (startVideo sdk cameraIndex s t).trace
              (stopVideo sdk (startVideo sdk cameraIndex s t).service
                (startVideo sdk cameraIndex s t).trace).trace =
            [⟨.disposeRenderer renderer, none⟩, ⟨.disposeStream stream, none⟩] ∧
          timesCalled (.disposeRenderer renderer)
            (callsDuring t (stopVideo sdk (startVideo sdk cameraIndex s t).service
              (startVideo sdk cameraIndex s t).trace).trace) = 1 ∧
          timesCalled (.disposeStream stream)
            (callsDuring t (stopVideo sdk (startVideo sdk cameraIndex s t).service
              (startVideo sdk cameraIndex s t).trace).trace) = 1 ∧
          (stopVideo sdk (startVideo sdk cameraIndex s t).service
              (startVideo sdk cameraIndex s t).trace).service.videoStreamRenderer = none ∧
          (stopVideo sdk (startVideo sdk cameraIndex s t).service
              (startVideo sdk cameraIndex s t).trace).service.localVideoStream = none ∧
          isVideoActive (stopVideo sdk (startVideo sdk cameraIndex s t).service
              (startVideo sdk cameraIndex s t).trace).service = false)) ∧
    (∀ (s : AzureVideoService) (t : Trace),
      s.localVideoStream = none → s.videoStreamRenderer = none →
      (stopVideo sdk s t).result = .ok () ∧ callsDuring t (stopVideo sdk s t).trace = [] ∧
        (stopVideo sdk s t).service = s ∧
        isVideoActive (stopVideo sdk s t).service = false) := by
  constructor
  · intro s t cameraIndex target h
    obtain ⟨-, -, heq⟩ := startVideo_ok sdk cameraIndex s t target h
    refine ⟨_, _, rfl, rfl, ?_⟩
    rw [heq]
    refine ⟨rfl, rfl, by simp [isVideoActive], by simp [callsDuring_append], ?_⟩
    intro hno
    rw [stopVideo_of_no_throw sdk _ _ _ _ rfl rfl hno]
    refine ⟨rfl, callsDuring_append _ _, ?_, ?_, rfl, rfl, rfl⟩
    · simp only [List.append_assoc, callsDuring_append]
      simp [timesCalled]
    · simp only [List.append_assoc, callsDuring_append]
      simp [timesCalled]
  · intro s t hs hr
    rw [stopVideo_idle sdk s t hs hr]
    simp [callsDuring_self, isVideoActive, hs]

/-- C4, at a concrete run: after `initialize()` with the sample devices, `startVideo(0)`
leaves the video active, and the following `stopVideo()` leaves it inactive. -/
theorem startVideo_stopVideo_lifecycle_witness :
    (∃ target, (previewRun (Sdk.working sampleCameras sampleMicrophones)).result
      = .ok target) ∧
    isVideoActive (previewRun (Sdk.working sampleCameras sampleMicrophones)).service
      = true ∧
    isVideoActive (stopVideo (Sdk.working sampleCameras sampleMicrophones)
      (previewRun (Sdk.working sampleCameras sampleMicrophones)).service
      (previewRun (Sdk.working sampleCameras sampleMicrophones)).trace).service = false :=
  have h := (startVideo_stopVideo_lifecycle
    (Sdk.working sampleCameras sampleMicrophones)).1
    (initializeService (Sdk.working sampleCameras sampleMicrophones)
      AzureVideoService.fresh []).service
    (initializeService (Sdk.working sampleCameras sampleMicrophones)
      AzureVideoService.fresh []).trace 0 _ rfl
  match h with
  | ⟨_, _, _, _, _, _, hactive, _, hstop⟩ =>
    ⟨⟨_, rfl⟩, hactive, (hstop (by decide)).2.2.2.2.2.2⟩

theorem cleanup_service (sdk : Sdk) (s : AzureVideoService) (t : Trace) :
    (cleanup sdk s t).service = s := by
  unfold cleanup cleanupStream
  repeat' split
  all_goals rfl

/-- The calls of a `cleanup()` in which the `dispose` of the renderer did not throw. -/
theorem cleanup_calls (sdk : Sdk) (s : AzureVideoService) (t : Trace)
    (h : ∀ renderer e,
      ⟨.disposeRenderer renderer, some e⟩ ∉ callsDuring t (cleanup sdk s t).trace) :
    ∃ threw, callsDuring t (cleanup sdk s t).trace =
      (match s.videoStreamRenderer with
        | some renderer => [⟨.disposeRenderer renderer, none⟩]
        | none => []) ++
      (match s.localVideoStream with
        | some stream => [⟨.disposeStream stream, threw⟩]
        | none => []) := by
  revert h
  unfold cleanup cleanupStream
  repeat' split
  all_goals simp_all [callsDuring_append, callsDuring_self, List.append_assoc]

/-- C5, as stated, fails.  After `initialize()` and `startVideo(0)` the service holds a
stream and a renderer; with an SDK in which the `dispose` of a renderer throws,
`cleanup()` never calls `dispose` on the stream, so the property does not hold of that
run: its part about the stream is false there. -/
theorem cleanup_skips_stream_when_renderer_dispose_throws :
    ¬ CleanupDisposesHeld brokenDisposeSdk (previewRun brokenDisposeSdk).service
        (previewRun brokenDisposeSdk).trace := by
  intro h
  have h2 := h.2.1 ⟨5, some ⟨"cam-0", "Integrated Webcam"⟩⟩ (by decide)
  revert h2
  decide

theorem cleanup_renderer_once (sdk : Sdk) (s : AzureVideoService) (t : Trace)
    (renderer : VideoStreamRenderer) (hr : s.videoStreamRenderer = some renderer) :
    timesCalled (.disposeRenderer renderer) (callsDuring t (cleanup sdk s t).trace) = 1 := by
  unfold cleanup cleanupStream
  simp only [hr]
  repeat' split
  all_goals simp [callsDuring_append, List.append_assoc, timesCalled]

theorem cleanup_idle (sdk : Sdk) (s : AzureVideoService) (t : Trace)
    (hr : s.videoStreamRenderer = none) (hs : s.localVideoStream = none) :
    callsDuring t (cleanup sdk s t).trace = [] := by
  simp [cleanup, cleanupStream, hr, hs, callsDuring_self]

theorem cleanup_stream_once (sdk : Sdk) (s : AzureVideoService) (t : Trace)
    (h : ∀ renderer e,
      ⟨.disposeRenderer renderer, some e⟩ ∉ callsDuring t (cleanup sdk s t).trace)
    (stream : LocalVideoStream) (hs : s.localVideoStream = some stream) :
    timesCalled (.disposeStream stream) (callsDuring t (cleanup sdk s t).trace) = 1 := by
  obtain ⟨threw, hc⟩ := cleanup_calls sdk s t h
  rw [hc]
  cases hr : s.videoStreamRenderer <;> simp [hr, hs, timesCalled]

/-- C5, amended.  For every service state `cleanup()` calls `dispose` exactly once on the
held renderer, makes no SDK call when neither a renderer nor a stream is held, and
changes no field of the service, so `isVideoActive()` and `getDevices()` answer as
before; and in every run in which the `dispose` of the renderer does not throw it calls
`dispose` exactly once on the held stream. -/
theorem cleanup_disposes_held_handles (sdk : Sdk) (s : AzureVideoService) (t : Trace) :
    (∀ renderer, s.videoStreamRenderer = some renderer →
      timesCalled (.disposeRenderer renderer) (callsDuring t (cleanup sdk s t).trace) = 1) ∧
    ((∀ renderer e,
        ⟨.disposeRenderer renderer, some e⟩ ∉ callsDuring t (cleanup sdk s t).trace) →
      ∀ stream, s.localVideoStream = some stream →
        timesCalled (.disposeStream stream) (callsDuring t (cleanup sdk s t).trace) = 1) ∧
    (s.videoStreamRenderer = none → s.localVideoStream = none →
      callsDuring t (cleanup sdk s t).trace = []) ∧
    (cleanup sdk s t).service = s ∧
    isVideoActive (cleanup sdk s t).service = isVideoActive s ∧
    getDevices (cleanup sdk s t).service = getDevices s := by
  refine ⟨cleanup_renderer_once sdk s t, cleanup_stream_once sdk s t,
    cleanup_idle sdk s t, cleanup_service sdk s t, ?_, ?_⟩
  · rw [cleanup_service]
  · rw [cleanup_service]

/-- C5, amended, at two concrete runs after `initialize()` and `startVideo(0)`: with an
SDK in which no call throws, `cleanup()` disposes the renderer and the stream once each;
with an SDK in which the `dispose` of a renderer throws, `cleanup()` still calls it
exactly once and leaves the service as it was. -/
theorem cleanup_disposes_held_handles_witness :
    (timesCalled (.disposeRenderer ⟨6, ⟨5, some ⟨"cam-0", "Integrated Webcam"⟩⟩⟩)
        (callsDuring (previewRun (Sdk.working sampleCameras sampleMicrophones)).trace
          (cleanup (Sdk.working sampleCameras sampleMicrophones)
            (previewRun (Sdk.working sampleCameras sampleMicrophones)).service
            (previewRun (Sdk.working sampleCameras sampleMicrophones)).trace).trace) = 1 ∧
      timesCalled (.disposeStream ⟨5, some ⟨"cam-0", "Integrated Webcam"⟩⟩)
        (callsDuring (previewRun (Sdk.working sampleCameras sampleMicrophones)).trace
          (cleanup (Sdk.working sampleCameras sampleMicrophones)
            (previewRun (Sdk.working sampleCameras sampleMicrophones)).service
            (previewRun (Sdk.working sampleCameras sampleMicrophones)).trace).trace) = 1) ∧
    (timesCalled (.disposeRenderer ⟨6, ⟨5, some ⟨"cam-0", "Integrated Webcam"⟩⟩⟩)
        (callsDuring (previewRun brokenDisposeSdk).trace
          (cleanup brokenDisposeSdk (previewRun brokenDisposeSdk).service
            (previewRun brokenDisposeSdk).trace).trace) = 1 ∧
      (cleanup brokenDisposeSdk (previewRun brokenDisposeSdk).service
        (previewRun brokenDisposeSdk).trace).service = (previewRun brokenDisposeSdk).service) :=
  have hall : ∀ ev ∈
      callsDuring (previewRun (Sdk.working sampleCameras sampleMicrophones)).trace
        (cleanup (Sdk.working sampleCameras sampleMicrophones)
          (previewRun (Sdk.working sampleCameras sampleMicrophones)).service
          (previewRun (Sdk.working sampleCameras sampleMicrophones)).trace).trace,
      ev.threw = none := by decide
  have hok := cleanup_disposes_held_handles (Sdk.working sampleCameras sampleMicrophones)
    (previewRun (Sdk.working sampleCameras sampleMicrophones)).service
    (previewRun (Sdk.working sampleCameras sampleMicrophones)).trace
  have hbroken := cleanup_disposes_held_handles brokenDisposeSdk
    (previewRun brokenDisposeSdk).service (previewRun brokenDisposeSdk).trace
  ⟨⟨hok.1 _ (by decide),
    hok.2.1 (fun _ _ hm => absurd (hall _ hm) (by simp)) _ (by decide)⟩,
   ⟨hbroken.1 _ (by decide), hbroken.2.2.2.1⟩⟩

theorem initializeTry_spec (sdk : Sdk) (s : AzureVideoService) (t : Trace) :
    ((callsDuring t (initializeTry sdk s t).trace).map (·.call)
      <+: initializeCalls t.length) ∧
    ((∀ ev ∈ callsDuring t (initializeTry sdk s t).trace, ev.threw = none) →
      (callsDuring t (initializeTry sdk s t).trace).map (·.call) = initializeCalls t.length ∧
      (initializeTry sdk s t).service.isInitialized = true ∧
      (initializeTry sdk s t).result
        = .ok ⟨sdk.cameras ((initializeTry sdk s t).trace.take (t.length + 3)),
               sdk.microphones ((initializeTry sdk s t).trace.take (t.length + 4))⟩ ∧
      getDevices (initializeTry sdk s t).service
        = ⟨sdk.cameras ((initializeTry sdk s t).trace.take (t.length + 3)),
           sdk.microphones ((initializeTry sdk s t).trace.take (t.length + 4))⟩) ∧
    (∀ c e, ⟨c, some e⟩ ∈ callsDuring t (initializeTry sdk s t).trace →
      (initializeTry sdk s t).service.isInitialized = s.isInitialized) := by
  unfold initializeTry
  dsimp only
  repeat' split
  all_goals simp [List.append_assoc, callsDuring_append, initializeCalls, getDevices,
    List.take_append]

/-- C6. On a new service `initialize()` makes its SDK calls in program order
(`new CallClient()`, `getDeviceManager`, `askDevicePermission({video: true, audio: true})`,
`getCameras`, `getMicrophones`).  When none of them throws, all are made, `isInitialized`
becomes true, and the value returned and a following `getDevices()` are the two lists
that `getCameras` and `getMicrophones` returned.  When one of them throws it is the last
call made, `isInitialized` stays false and the operation ends in an error. -/
theorem initialize_on_fresh_service (sdk : Sdk) (t : Trace) :
    ((callsDuring t (initializeService sdk .fresh t).trace).map (·.call)
      <+: initializeCalls t.length) ∧
    ((∀ ev ∈ callsDuring t (initializeService sdk .fresh t).trace, ev.threw = none) →
      (callsDuring t (initializeService sdk .fresh t).trace).map (·.call)
        = initializeCalls t.length ∧
      (initializeService sdk .fresh t).service.isInitialized = true ∧
      (initializeService sdk .fresh t).result
        = .ok ⟨sdk.cameras ((initializeService sdk .fresh t).trace.take (t.length + 3)),
               sdk.microphones
                 ((initializeService sdk .fresh t).trace.take (t.length + 4))⟩ ∧
      getDevices (initializeService sdk .fresh t).service
        = ⟨sdk.cameras ((initializeService sdk .fresh t).trace.take (t.length + 3)),
           sdk.microphones ((initializeService sdk .fresh t).trace.take (t.length + 4))⟩) ∧
    (∀ c e, ⟨c, some e⟩ ∈ callsDuring t (initializeService sdk .fresh t).trace →
      (callsDuring t (initializeService sdk .fresh t).trace).getLast? = some ⟨c, some e⟩ ∧
      (initializeService sdk .fresh t).service.isInitialized = false ∧
      (initializeService sdk .fresh t).result
        = .error (mkError ("Error al inicializar: " ++ e.message))) := by
  obtain ⟨h1, h2, h3⟩ := initializeTry_spec sdk .fresh t
  have hF := initializeTry_failFast sdk .fresh t
  unfold initializeService
  simp only [catchRethrow_trace, catchRethrow_service]
  refine ⟨h1, ?_, ?_⟩
  · intro hno
    obtain ⟨ha, hb, hc, hd⟩ := h2 hno
    rw [catchRethrow_ok _ _ _ hc]
    exact ⟨ha, hb, hc, hd⟩
  · intro c e hm
    exact ⟨(hF.threw c e hm).1, h3 c e hm,
      catchRethrow_error _ _ e (hF.threw c e hm).2⟩

/-- C6, at two concrete runs on a new service: with an SDK in which no call throws,
`initialize()` returns the sample devices and sets `isInitialized`; with an SDK whose
`askDevicePermission` throws, that call is the last one made and `isInitialized` stays
false. -/
theorem initialize_on_fresh_service_witness :
    ((initializeService (Sdk.working sampleCameras sampleMicrophones)
        AzureVideoService.fresh []).result = .ok ⟨sampleCameras, sampleMicrophones⟩ ∧
      (initializeService (Sdk.working sampleCameras sampleMicrophones)
        AzureVideoService.fresh []).service.isInitialized = true) ∧
    ((callsDuring [] (initializeService
        (Sdk.failing SdkCall.isAskDevicePermission sampleError sampleCameras
          sampleMicrophones) AzureVideoService.fresh []).trace).getLast?
        = some ⟨.askDevicePermission ⟨1⟩ true true, some sampleError⟩ ∧
      (initializeService
        (Sdk.failing SdkCall.isAskDevicePermission sampleError sampleCameras
          sampleMicrophones) AzureVideoService.fresh []).service.isInitialized = false) :=
  have hok := (initialize_on_fresh_service
    (Sdk.working sampleCameras sampleMicrophones) []).2.1 (by decide)
  have hfail := (initialize_on_fresh_service
    (Sdk.failing SdkCall.isAskDevicePermission sampleError sampleCameras
      sampleMicrophones) []).2.2 (.askDevicePermission ⟨1⟩ true true) sampleError
    (by decide)
  ⟨⟨hok.2.2.1, hok.2.1⟩, ⟨hfail.1, hfail.2.1⟩⟩

theorem initializeService_failed (sdk : Sdk) (s : AzureVideoService) (t : Trace)
    (e : JsError) (h : (initializeService sdk s t).result = .error e) :
    (initializeService sdk s t).service.isInitialized = s.isInitialized := by
  obtain ⟨e0, he0⟩ := catchRethrow_result_error _ _ e h
  obtain ⟨c, hc⟩ := ((initializeTry_failFast sdk s t).2.2 e0).1 he0
  unfold initializeService
  rw [catchRethrow_service]
  exact (initializeTry_spec sdk s t).2.2 c e0 (List.mem_of_mem_getLast? hc)

theorem rethrown_ne_notInitialized (m : String) :
    "Error al iniciar video: " ++ m ≠ "El servicio no está inicializado" := by
  intro h
  have h2 := congrArg (fun x => x.data.get? 1) h
  simp [String.data_append] at h2

theorem startVideo_of_not_initialized (sdk : Sdk) (i : Int) (s : AzureVideoService)
    (t : Trace) (h : s.isInitialized = false) :
    startVideo sdk i s t = ⟨.error (mkError "El servicio no está inicializado"), s, t⟩ := by
  simp [startVideo, h]

/-- C7. `startVideo` throws the error with message "El servicio no está inicializado"
exactly when `isInitialized` is false, as on a new service and after a first
`initialize()` that failed; on an initialized service without cameras it throws the error
with message "No se encontró ninguna cámara".  In both cases it makes no SDK call and
changes no field, so `isVideoActive()` answers as before. -/
theorem startVideo_guards (sdk : Sdk) (cameraIndex : Int) (s : AzureVideoService)
    (t : Trace) :
    (s.isInitialized = false →
      (startVideo sdk cameraIndex s t).result
        = .error (mkError "El servicio no está inicializado")) ∧
    (∀ e, (startVideo sdk cameraIndex s t).result = .error e →
      e.message = "El servicio no está inicializado" → s.isInitialized = false) ∧
    (s.isInitialized = true → s.availableCameras = [] →
      (startVideo sdk cameraIndex s t).result
        = .error (mkError "No se encontró ninguna cámara")) ∧
    (s.isInitialized = false ∨ s.availableCameras = [] →
      (startVideo sdk cameraIndex s t).trace = t ∧
      (startVideo sdk cameraIndex s t).service = s ∧
      isVideoActive (startVideo sdk cameraIndex s t).service = isVideoActive s) ∧
    (startVideo sdk cameraIndex .fresh t).result
      = .error (mkError "El servicio no está inicializado") ∧
    (∀ e, (initializeService sdk .fresh t).result = .error e →
      (startVideo sdk cameraIndex (initializeService sdk .fresh t).service
          (initializeService sdk .fresh t).trace).result
        = .error (mkError "El servicio no está inicializado")) := by
  refine ⟨?_, ?_, ?_, ?_, ?_, ?_⟩
  · intro h; rw [startVideo_of_not_initialized _ _ _ _ h]
  · intro e he hm
    cases hi : s.isInitialized with
    | false => rfl
    | true =>
      exfalso
      unfold startVideo at he
      simp only [hi, Bool.not_true, Bool.false_eq_true, if_false] at he
      split at he
      · simp only [Except.error.injEq] at he
        subst he
        revert hm
        simp [mkError]
      · cases hr : (startVideoTry sdk cameraIndex s t).result with
        | error e0 =>
          rw [catchRethrow_error _ _ e0 hr] at he
          simp only [Except.error.injEq] at he
          subst he
          exact rethrown_ne_notInitialized _ hm
        | ok a =>
          rw [catchRethrow_ok _ _ a hr, hr] at he
          simp at he
  · intro hi hc
    simp [startVideo, hi, hc]
  · intro h
    rcases h with h | h
    · rw [startVideo_of_not_initialized _ _ _ _ h]; exact ⟨rfl, rfl, rfl⟩
    · unfold startVideo
      split
      · exact ⟨rfl, rfl, rfl⟩
      · simp [h]
  · rw [startVideo_of_not_initialized _ _ _ _ rfl]
  · intro e he
    rw [startVideo_of_not_initialized _ _ _ _
      ((initializeService_failed sdk .fresh t e he).trans rfl)]

/-- C7, at concrete runs: `startVideo(0)` after an `initialize()` that failed throws the
"not initialized" error, and on an initialized service without cameras it throws the
"no camera" error. -/
theorem startVideo_guards_witness :
    (startVideo (Sdk.failing SdkCall.isAskDevicePermission sampleError [] []) 0
        (initializeService (Sdk.failing SdkCall.isAskDevicePermission sampleError [] [])
          AzureVideoService.fresh []).service
        (initializeService (Sdk.failing SdkCall.isAskDevicePermission sampleError [] [])
          AzureVideoService.fresh []).trace).result
      = .error (mkError "El servicio no está inicializado") ∧
    (startVideo (Sdk.working [] []) 0
        (initializeService (Sdk.working [] []) AzureVideoService.fresh []).service
        (initializeService (Sdk.working [] []) AzureVideoService.fresh []).trace).result
      = .error (mkError "No se encontró ninguna cámara") :=
  ⟨(startVideo_guards (Sdk.failing SdkCall.isAskDevicePermission sampleError [] []) 0
      AzureVideoService.fresh []).2.2.2.2.2 _ rfl,
   (startVideo_guards (Sdk.working [] []) 0
      (initializeService (Sdk.working [] []) AzureVideoService.fresh []).service
      (initializeService (Sdk.working [] []) AzureVideoService.fresh []).trace).2.2.1
      (by decide) (by decide)⟩

/-! ## Properties of the controller -/

theorem init_never_rejects (sdk : Sdk) (app : App) : (init sdk app).result = .ok () := by
  unfold init
  split <;> rfl

theorem toggleCamera_never_rejects (sdk : Sdk) (app : App) :
    (toggleCamera sdk app).result = .ok () := by
  unfold toggleCamera
  dsimp only
  split <;> rfl

/-- The `catch` clause of `init()` shows the error thrown by `initialize()`. -/
theorem init_shows_failure (sdk : Sdk) (app : App) (e : JsError)
    (h : (initializeService sdk app.azureService app.trace).result = .error e) :
    (init sdk app).app.ui.errorText = e.message ∧
      "hidden" ∉ (init sdk app).app.ui.errorMessageClassList := by
  revert h
  unfold init
  generalize initializeService sdk app.azureService app.trace = o
  rcases o with ⟨r, sv, tr⟩
  intro h
  simp only at h
  subst h
  simp [showError]

/-- The `catch` clause of `toggleCamera()` shows the error thrown by `startCamera()` or
`stopCamera()`. -/
theorem toggleCamera_shows_failure (sdk : Sdk) (app : App) (e : JsError)
    (h : (if !app.ui.cameraOn then startCamera sdk app else stopCamera sdk app).result
      = .error e) :
    (toggleCamera sdk app).app.ui.errorText = e.message ∧
      "hidden" ∉ (toggleCamera sdk app).app.ui.errorMessageClassList := by
  revert h
  unfold toggleCamera
  dsimp only
  generalize (if !app.ui.cameraOn then startCamera sdk app else stopCamera sdk app) = r
  rcases r with ⟨res, app1⟩
  intro h
  simp only at h
  subst h
  simp [showError]

/-- C2, at a failing input.  After `init()` and a click that turned the camera on, the
user picks the second camera and `createView` throws "Permission denied" while
`handleCameraChange` restarts the preview: the promise of `handleCameraChange` is
rejected with `Error("Error al iniciar video: Permission denied")`, the error text is
left as it was, the banner keeps its class `hidden` and no timer is set. -/
theorem handleCameraChange_lets_failure_escape :
    (previewSession flakySdk).ui.cameraOn = true ∧
    ⟨.createView ⟨11, ⟨10, some ⟨"cam-1", ""⟩⟩⟩, some sampleError⟩ ∈
      callsDuring (previewSession flakySdk).trace
        (dispatch flakySdk (.cameraSelectChange 1) (previewSession flakySdk)).app.trace ∧
    (dispatch flakySdk (.cameraSelectChange 1) (previewSession flakySdk)).result
      = .error (mkError ("Error al iniciar video: " ++ sampleError.message)) ∧
    (dispatch flakySdk (.cameraSelectChange 1) (previewSession flakySdk)).app.ui.errorText
      = (previewSession flakySdk).ui.errorText ∧
    "hidden" ∈ (dispatch flakySdk (.cameraSelectChange 1)
      (previewSession flakySdk)).app.ui.errorMessageClassList ∧
    (dispatch flakySdk (.cameraSelectChange 1) (previewSession flakySdk)).app.ui.timeouts
      = [] :=
  ⟨by decide, by decide, by rfl, by decide, by decide, by decide⟩

/-- C3. From a page with `cameraOn = false`, when the `startVideo` call made by
`toggleCamera` succeeds, `toggleCamera` completes with `cameraOn` true, the class
`active` on the camera button, the label "Apagar Cámara", and the video container
holding exactly the element that `startVideo` returned. -/
theorem toggleCamera_turns_camera_on (sdk : Sdk) (app : App) (videoElement : HtmlElement)
    (hoff : app.ui.cameraOn = false)
    (hstart : (startVideo sdk (orZero (parseInt app.ui.cameraSelect.value))
      app.azureService app.trace).result = .ok videoElement) :
    (toggleCamera sdk app).result = .ok () ∧
    (toggleCamera sdk app).app.ui.cameraOn = true ∧
    "active" ∈ (toggleCamera sdk app).app.ui.cameraBtnClassList ∧
    (toggleCamera sdk app).app.ui.cameraText = "Apagar Cámara" ∧
    (toggleCamera sdk app).app.ui.videoContainer = [videoElement] ∧
    (toggleCamera sdk app).app.azureService
      = (startVideo sdk (orZero (parseInt app.ui.cameraSelect.value))
          app.azureService app.trace).service ∧
    (toggleCamera sdk app).app.trace
      = (startVideo sdk (orZero (parseInt app.ui.cameraSelect.value))
          app.azureService app.trace).trace := by
  revert hstart
  unfold toggleCamera startCamera
  simp only [hoff]
  generalize startVideo sdk (orZero (parseInt app.ui.cameraSelect.value))
    app.azureService app.trace = o
  rcases o with ⟨r, sv, tr⟩
  intro hstart
  simp only at hstart
  subst hstart
  simp

/-- C3, at a concrete run: after `init()` with the sample devices, a click on the camera
button turns the camera on and puts the view of the first camera in the container. -/
theorem toggleCamera_turns_camera_on_witness :
    (init (Sdk.working sampleCameras sampleMicrophones) startApp).app.ui.cameraOn = false ∧
    (toggleCamera (Sdk.working sampleCameras sampleMicrophones)
      (init (Sdk.working sampleCameras sampleMicrophones) startApp).app).app.ui.cameraOn
      = true ∧
    "active" ∈ (toggleCamera (Sdk.working sampleCameras sampleMicrophones)
      (init (Sdk.working sampleCameras sampleMicrophones)
        startApp).app).app.ui.cameraBtnClassList ∧
    (toggleCamera (Sdk.working sampleCameras sampleMicrophones)
      (init (Sdk.working sampleCameras sampleMicrophones)
        startApp).app).app.ui.videoContainer
      = [.videoView ⟨6, ⟨5, some ⟨"cam-0", "Integrated Webcam"⟩⟩⟩] :=
  have hoff : (init (Sdk.working sampleCameras sampleMicrophones)
      startApp).app.ui.cameraOn = false := by decide
  have h := toggleCamera_turns_camera_on (Sdk.working sampleCameras sampleMicrophones)
    (init (Sdk.working sampleCameras sampleMicrophones) startApp).app
    (.videoView ⟨6, ⟨5, some ⟨"cam-0", "Integrated Webcam"⟩⟩⟩) hoff (by rfl)
  ⟨hoff, h.2.1, h.2.2.1, h.2.2.2.2.1⟩

theorem classList_insert_erase (classList : Finset String) (token : String) :
    insert token (classList.erase token) = insert token classList := by
  ext x
  by_cases h : x = token <;> simp [h]

theorem toggleMicrophone_thrice (ui : Ui) :
    toggleMicrophone (toggleMicrophone (toggleMicrophone ui)) = toggleMicrophone ui := by
  cases h : ui.micOn <;> simp [toggleMicrophone, h, classList_insert_erase]

/-- C8. `toggleMicrophone` negates `micOn`; after a call the microphone button has the
class `active` exactly when `micOn` is true, the label is "Apagar Micrófono" and the icon
`icons.micOff` when it is true, "Encender Micrófono" and `icons.micOn` when it is false.
For every `n ≥ 1` the page after `n + 2` calls is the page after `n` calls, and `micOn`
after two calls is `micOn` before them. -/
theorem toggleMicrophone_two_state (ui : Ui) (n : Nat) :
    (toggleMicrophone ui).micOn = (!ui.micOn) ∧
    ("active" ∈ (toggleMicrophone ui).micBtnClassList ↔ (toggleMicrophone ui).micOn = true) ∧
    ((toggleMicrophone ui).micOn = true →
      (toggleMicrophone ui).micText = "Apagar Micrófono" ∧
      (toggleMicrophone ui).micIcon = icons.micOff) ∧
    ((toggleMicrophone ui).micOn = false →
      (toggleMicrophone ui).micText = "Encender Micrófono" ∧
      (toggleMicrophone ui).micIcon = icons.micOn) ∧
    (1 ≤ n → toggleMicrophone^[n + 2] ui = toggleMicrophone^[n] ui) ∧
    (toggleMicrophone (toggleMicrophone ui)).micOn = ui.micOn := by
  refine ⟨?_, ?_, ?_, ?_, ?_, ?_⟩
  · cases h : ui.micOn <;> simp [toggleMicrophone, h]
  · cases h : ui.micOn <;> simp [toggleMicrophone, h]
  · cases h : ui.micOn <;> simp [toggleMicrophone, h]
  · cases h : ui.micOn <;> simp [toggleMicrophone, h]
  · intro hn
    obtain ⟨m, rfl⟩ : ∃ m, n = m + 1 := ⟨n - 1, by omega⟩
    rw [show m + 1 + 2 = m + 3 from rfl, Function.iterate_add_apply,
      Function.iterate_add_apply toggleMicrophone m 1]
    simp only [Function.iterate_succ, Function.iterate_zero, Function.comp_apply, id_eq]
    rw [toggleMicrophone_thrice]
  · cases h : ui.micOn <;> simp [toggleMicrophone, h]

/-- C8, at a concrete page: on the sample page three calls give the page of one call,
with the microphone shown as on. -/
theorem toggleMicrophone_two_state_witness :
    toggleMicrophone^[1 + 2] samplePage = toggleMicrophone^[1] samplePage ∧
    (toggleMicrophone samplePage).micOn = true ∧
    (toggleMicrophone samplePage).micText = "Apagar Micrófono" ∧
    (toggleMicrophone samplePage).micIcon = icons.micOff :=
  have h := toggleMicrophone_two_state samplePage 1
  have hon : (toggleMicrophone samplePage).micOn = true := by decide
  ⟨h.2.2.2.2.1 (by decide), hon, (h.2.2.1 hon).1, (h.2.2.1 hon).2⟩

theorem digitChar_isDecimalDigit (d : Nat) (h : d < 10) :
    IsDecimalDigit (Nat.digitChar d) ∧ radixDigit 10 (Nat.digitChar d) = some d := by
  interval_cases d <;> exact ⟨by unfold IsDecimalDigit; decide, by decide⟩

theorem IsDecimalDigit.radixDigit_isSome {c : Char} (h : IsDecimalDigit c) :
    (radixDigit 10 c).isSome = true := by
  obtain ⟨h1, h2⟩ := h
  have : c.toNat - 48 < 10 := by omega
  simp [radixDigit, digitValue, h1, h2, this]

theorem IsDecimalDigit.not_whiteSpace {c : Char} (h : IsDecimalDigit c) :
    isStrWhiteSpaceChar c = false := by
  obtain ⟨h1, h2⟩ := h
  simp only [isStrWhiteSpaceChar, Bool.or_eq_false_iff, decide_eq_false_iff_not,
    Bool.and_eq_false_imp, decide_eq_true_eq, List.mem_cons, List.mem_singleton, not_or,
    List.not_mem_nil, not_false_eq_true, and_true]
  omega

theorem IsDecimalDigit.ne_of_toNat {c d : Char} (h : IsDecimalDigit c)
    (hd : d.toNat < 48 ∨ 57 < d.toNat) : c ≠ d := by
  rintro rfl
  obtain ⟨h1, h2⟩ := h
  omega

/-- The digits written for `n` are decimal digits, there is at least one, and read back
from the left they give `n`. -/
theorem toDigitsCore_spec (fuel : Nat) : ∀ (n : Nat) (ds : List Char), n < fuel →
    (∀ c ∈ ds, IsDecimalDigit c) →
    (∀ c ∈ Nat.toDigitsCore 10 fuel n ds, IsDecimalDigit c) ∧
    Nat.toDigitsCore 10 fuel n ds ≠ [] ∧
    (Nat.toDigitsCore 10 fuel n ds).foldl
        (fun acc c => acc * 10 + (radixDigit 10 c).getD 0) 0
      = ds.foldl (fun acc c => acc * 10 + (radixDigit 10 c).getD 0) n := by
  induction fuel with
  | zero => intro n ds h; omega
  | succ fuel ih =>
    intro n ds hn hds
    have hd := digitChar_isDecimalDigit (n % 10) (Nat.mod_lt _ (by decide))
    have hds2 : ∀ c ∈ Nat.digitChar (n % 10) :: ds, IsDecimalDigit c := by
      intro c hc
      rcases List.mem_cons.1 hc with rfl | hc
      · exact hd.1
      · exact hds c hc
    unfold Nat.toDigitsCore
    dsimp only
    split
    · rename_i h0
      refine ⟨hds2, by simp, ?_⟩
      have : n % 10 = n := Nat.mod_eq_of_lt (by omega)
      rw [List.foldl_cons, hd.2, this]
      simp
    · rename_i h0
      obtain ⟨a, b, c⟩ := ih (n / 10) (Nat.digitChar (n % 10) :: ds) (by omega) hds2
      refine ⟨a, b, ?_⟩
      rw [c]
      have : n / 10 * 10 + n % 10 = n := by omega
      rw [List.foldl_cons, hd.2]
      simp [this]

/-- `parseInt` reads back the decimal text of a natural number. -/
theorem parseInt_toString (n : Nat) : parseInt (toString n) = some (n : Int) := by
  have hdata : (toString n).data = Nat.toDigits 10 n := rfl
  obtain ⟨hall, hne, hval⟩ := toDigitsCore_spec (n + 1) n [] (by omega) (by simp)
  change (∀ c ∈ Nat.toDigits 10 n, IsDecimalDigit c) at hall
  change Nat.toDigits 10 n ≠ [] at hne
  change digitsValue 10 (Nat.toDigits 10 n) = n at hval
  unfold parseInt
  rw [hdata]
  generalize Nat.toDigits 10 n = L at hall hne hval
  match L, hne with
  | c0 :: rest, _ =>
    have h0 : IsDecimalDigit c0 := hall c0 (by simp)
    have hdrop : List.dropWhile isStrWhiteSpaceChar (c0 :: rest) = c0 :: rest := by
      simp [List.dropWhile, h0.not_whiteSpace]
    have hsign : stripSign (c0 :: rest) = (1, c0 :: rest) := by
      simp [stripSign, h0.ne_of_toNat (d := '-') (by decide),
        h0.ne_of_toNat (d := '+') (by decide)]
    have hhex : stripHexPrefix (c0 :: rest) = (10, c0 :: rest) := by
      cases rest with
      | nil => rfl
      | cons c1 rest1 =>
        have h1 : IsDecimalDigit c1 := hall c1 (by simp)
        simp [stripHexPrefix, h1.ne_of_toNat (d := 'x') (by decide),
          h1.ne_of_toNat (d := 'X') (by decide)]
    have htake : List.takeWhile (fun c => (radixDigit 10 c).isSome) (c0 :: rest)
        = c0 :: rest := by
      rw [List.takeWhile_eq_self_iff]
      intro c hc
      exact (hall c hc).radixDigit_isSome
    simp only [hdrop, hsign, hhex, htake, hval]
    simp

theorem orZero_parseInt_toString (n : Nat) :
    orZero (parseInt (toString n)) = (n : Int) := by
  rw [parseInt_toString]; rfl

theorem forEach_appendChild (entries : List (Nat × VideoDeviceInfo)) : ∀ ui : Ui,
    entries.foldl
      (fun acc entry =>
        { acc with
          cameraSelect := acc.cameraSelect.appendChild (cameraOption entry.1 entry.2) })
      ui
    = { ui with cameraSelect :=
          ⟨ui.cameraSelect.options ++ entries.map (fun entry => cameraOption entry.1 entry.2),
           match entries, ui.cameraSelect.selectedIndex with
           | [], selected => selected
           | _ :: _, some i => some i
           | _ :: _, none => some 0⟩ } := by
  induction entries with
  | nil => intro ui; simp
  | cons entry rest ih =>
    intro ui
    rw [List.foldl_cons, ih]
    cases rest <;> cases h : ui.cameraSelect.selectedIndex <;>
      simp [SelectElement.appendChild, h]

theorem cameraSelector_after_setup (cameras : List VideoDeviceInfo) (ui : Ui)
    (h : 1 < cameras.length) :
    setupCameraSelector cameras ui =
      { ui with
        cameraSelect :=
          ⟨cameras.enum.map (fun entry => cameraOption entry.1 entry.2), some 0⟩
        cameraSelectorClassList := ui.cameraSelectorClassList.erase "hidden" } := by
  unfold setupCameraSelector
  rw [if_pos h]
  dsimp only
  rw [forEach_appendChild]
  match cameras, h with
  | c0 :: rest, _ => simp [SelectElement.clear, List.enum]

theorem cameraSelector_built_option (cameras : List VideoDeviceInfo) (ui : Ui)
    (h : 1 < cameras.length) (i : Nat) :
    (setupCameraSelector cameras ui).cameraSelect.options[i]?
      = (cameras[i]?).map (fun camera => cameraOption i camera) := by
  rw [cameraSelector_after_setup cameras ui h]
  simp only [List.getElem?_map, List.getElem?_enum]
  cases cameras[i]? <;> rfl

theorem initializeTry_ok_devices (sdk : Sdk) (s : AzureVideoService) (t : Trace)
    (devices : Devices) (h : (initializeTry sdk s t).result = .ok devices) :
    getDevices (initializeTry sdk s t).service = devices := by
  revert h
  unfold initializeTry
  dsimp only
  repeat' split
  all_goals simp [getDevices]

/-- The devices returned by a successful `initialize()` are the ones the service keeps. -/
theorem initializeService_ok_devices (sdk : Sdk) (s : AzureVideoService) (t : Trace)
    (devices : Devices) (h : (initializeService sdk s t).result = .ok devices) :
    getDevices (initializeService sdk s t).service = devices := by
  unfold initializeService at h ⊢
  cases hr : (initializeTry sdk s t).result with
  | error e => rw [catchRethrow_error _ _ e hr] at h; simp at h
  | ok a =>
    rw [catchRethrow_ok _ _ a hr] at h ⊢
    exact initializeTry_ok_devices sdk s t devices h

/-- After a successful `initialize()`, `init()` builds the drop-down from the camera list
that the service keeps in `availableCameras`. -/
theorem init_builds_selector (sdk : Sdk) (app : App) (devices : Devices)
    (h : (initializeService sdk app.azureService app.trace).result = .ok devices) :
    (init sdk app).app.azureService.availableCameras = devices.cameras ∧
    (init sdk app).app.ui.cameraSelect
      = (setupCameraSelector devices.cameras
          (updateDeviceInfo devices app.ui)).cameraSelect := by
  have hd := initializeService_ok_devices sdk _ _ devices h
  revert h hd
  unfold init
  generalize initializeService sdk app.azureService app.trace = o
  rcases o with ⟨r, sv, tr⟩
  intro h hd
  simp only at h hd
  subst h
  simp only [getDevices] at hd
  exact ⟨by rw [← hd], rfl⟩

/-- What `setupCameraSelector` builds for more than one camera: the options, their
values and labels, the visible drop-down, and the index read back from each option. -/
theorem cameraSelector_setup_spec (cameras : List VideoDeviceInfo) (ui : Ui) :
    (1 < cameras.length →
      (setupCameraSelector cameras ui).cameraSelect.options.length = cameras.length ∧
      (∀ (i : Nat) (camera : VideoDeviceInfo), cameras[i]? = some camera →
        (setupCameraSelector cameras ui).cameraSelect.options[i]?
          = some ⟨toString i,
              if camera.name ≠ "" then camera.name else "Cámara " ++ toString (i + 1)⟩) ∧
      "hidden" ∉ (setupCameraSelector cameras ui).cameraSelectorClassList ∧
      (∀ (i : Nat) (option : OptionElement),
        (setupCameraSelector cameras ui).cameraSelect.options[i]? = some option →
        orZero (parseInt option.value) = (i : Int) ∧ i < cameras.length ∧
        (arrayGet cameras (orZero (parseInt option.value))).isSome = true) ∧
      (∀ i : Nat, i < cameras.length →
        orZero (parseInt (pickOption i (setupCameraSelector cameras ui)).cameraSelect.value)
          = (i : Int))) := by
  intro h
  have hopt := cameraSelector_built_option cameras ui h
  have hlen : (setupCameraSelector cameras ui).cameraSelect.options.length
      = cameras.length := by
    rw [cameraSelector_after_setup cameras ui h]; simp
  have hbuilt : ∀ (i : Nat) (option : OptionElement),
      (setupCameraSelector cameras ui).cameraSelect.options[i]? = some option →
      orZero (parseInt option.value) = (i : Int) ∧ i < cameras.length := by
    intro i option ho
    rw [hopt i] at ho
    cases hc : cameras[i]? with
    | none => rw [hc] at ho; simp at ho
    | some camera =>
      rw [hc] at ho
      simp only [Option.map_some', Option.some.injEq] at ho
      subst ho
      obtain ⟨hi, -⟩ := List.getElem?_eq_some_iff.1 hc
      exact ⟨orZero_parseInt_toString i, hi⟩
  refine ⟨hlen, ?_, ?_, ?_, ?_⟩
  · intro i camera hc
    rw [hopt i, hc]; rfl
  · rw [cameraSelector_after_setup cameras ui h]; simp
  · intro i option ho
    obtain ⟨h1, h2⟩ := hbuilt i option ho
    refine ⟨h1, h2, ?_⟩
    rw [h1]
    simp [arrayGet, h2]
  · intro i hi
    have hlt : i < (setupCameraSelector cameras ui).cameraSelect.options.length := by
      rw [hlen]; exact hi
    obtain ⟨option, ho⟩ : ∃ option,
        (setupCameraSelector cameras ui).cameraSelect.options[i]? = some option :=
      ⟨_, List.getElem?_eq_getElem hlt⟩
    have hv : (pickOption i (setupCameraSelector cameras ui)).cameraSelect.value
        = option.value := by
      simp [pickOption, hlt, SelectElement.value, ho]
    rw [hv]
    exact (hbuilt i option ho).1

theorem startVideoTry_first_call (sdk : Sdk) (i : Int) (s : AzureVideoService)
    (t : Trace) :
    (callsDuring t (startVideoTry sdk i s t).trace).head?
      = some ⟨.newLocalVideoStream (arrayGet s.availableCameras i),
          sdk.fault t (.newLocalVideoStream (arrayGet s.availableCameras i))⟩ := by
  unfold startVideoTry
  dsimp only
  repeat' split
  all_goals simp_all [callsDuring_append, List.append_assoc]

theorem startCamera_trace (sdk : Sdk) (app : App) :
    (startCamera sdk app).app.trace
      = (startVideo sdk (orZero (parseInt app.ui.cameraSelect.value))
          app.azureService app.trace).trace := by
  unfold startCamera
  dsimp only
  split <;> simp_all

/-- Once the user picked option `i` of the drop-down built for `cameras`, on an
initialized service whose `availableCameras` is that list, the first SDK call of
`startCamera` is `new LocalVideoStream(cameras[i])`. -/
theorem startCamera_uses_picked_camera (cameras : List VideoDeviceInfo) (ui : Ui)
    (sdk : Sdk) (app : App) (i : Nat) (hmany : 1 < cameras.length)
    (hi : i < cameras.length)
    (hselect : app.ui.cameraSelect
      = (pickOption i (setupCameraSelector cameras ui)).cameraSelect)
    (hinit : app.azureService.isInitialized = true)
    (hcams : app.azureService.availableCameras = cameras) :
    ∃ camera, cameras[i]? = some camera ∧
      (callsDuring app.trace (startCamera sdk app).app.trace).head?
        = some ⟨.newLocalVideoStream (some camera),
            sdk.fault app.trace (.newLocalVideoStream (some camera))⟩ := by
  have hindex : orZero (parseInt app.ui.cameraSelect.value) = (i : Int) := by
    rw [hselect]
    exact (cameraSelector_setup_spec cameras ui hmany).2.2.2.2 i hi
  have hget : arrayGet cameras (i : Int) = some cameras[i] := by
    simp [arrayGet, hi]
  have hne : ¬ cameras.length = 0 := by omega
  refine ⟨cameras[i], List.getElem?_eq_getElem hi, ?_⟩
  rw [startCamera_trace, hindex]
  unfold startVideo
  rw [hinit, hcams]
  simp only [Bool.not_true, Bool.false_eq_true, if_false, if_neg hne]
  rw [catchRethrow_trace, startVideoTry_first_call, hcams, hget]

/-- C9. For a list of `n > 1` cameras `setupCameraSelector` leaves exactly `n` options in
the drop-down, in list order, option `i` having the value `i` written in decimal and the
label `camera.name`, or "Cámara " followed by `i + 1` when that name is empty, and it
shows the drop-down; for a list of at most one camera it changes nothing.  For each
option built, the index `parseInt(value) || 0` that `startCamera` derives is the position
`i` of the option, `i < n`, and the camera at that index is defined.  Once the user
picked option `i`, `startCamera` on the initialized service holding that list runs
`startVideo` with that index, whose first SDK call is `new LocalVideoStream(cameras[i])`
with `cameras[i]` defined.  The list that `init()` hands to `setupCameraSelector` is the
`availableCameras` of the service. -/
theorem setupCameraSelector_options (cameras : List VideoDeviceInfo) (ui : Ui) :
    (1 < cameras.length →
      (setupCameraSelector cameras ui).cameraSelect.options.length = cameras.length ∧
      (∀ (i : Nat) (camera : VideoDeviceInfo), cameras[i]? = some camera →
        (setupCameraSelector cameras ui).cameraSelect.options[i]?
          = some ⟨toString i,
              if camera.name ≠ "" then camera.name else "Cámara " ++ toString (i + 1)⟩) ∧
      "hidden" ∉ (setupCameraSelector cameras ui).cameraSelectorClassList ∧
      (∀ (i : Nat) (option : OptionElement),
        (setupCameraSelector cameras ui).cameraSelect.options[i]? = some option →
        orZero (parseInt option.value) = (i : Int) ∧ i < cameras.length ∧
        (arrayGet cameras (orZero (parseInt option.value))).isSome = true) ∧
      (∀ i : Nat, i < cameras.length →
        orZero (parseInt (pickOption i (setupCameraSelector cameras ui)).cameraSelect.value)
          = (i : Int))) ∧
    (cameras.length ≤ 1 → setupCameraSelector cameras ui = ui) ∧
    (∀ (sdk : Sdk) (app : App) (i : Nat), 1 < cameras.length → i < cameras.length →
      app.ui.cameraSelect = (pickOption i (setupCameraSelector cameras ui)).cameraSelect →
      app.azureService.isInitialized = true →
      app.azureService.availableCameras = cameras →
      ∃ camera, cameras[i]? = some camera ∧
        (callsDuring app.trace (startCamera sdk app).app.trace).head?
          = some ⟨.newLocalVideoStream (some camera),
              sdk.fault app.trace (.newLocalVideoStream (some camera))⟩) ∧
    (∀ (sdk : Sdk) (app : App) (devices : Devices),
      (initializeService sdk app.azureService app.trace).result = .ok devices →
      (init sdk app).app.azureService.availableCameras = devices.cameras ∧
      (init sdk app).app.ui.cameraSelect
        = (setupCameraSelector devices.cameras
            (updateDeviceInfo devices app.ui)).cameraSelect) := by
  refine ⟨cameraSelector_setup_spec cameras ui, ?_, ?_, init_builds_selector⟩
  · intro h
    unfold setupCameraSelector
    rw [if_neg (by omega)]
  · intro sdk app i hmany hi hselect hinit hcams
    exact startCamera_uses_picked_camera cameras ui sdk app i hmany hi hselect hinit hcams

/-- C9, at a concrete run: for the two sample cameras the drop-down gets the options
`0` "Integrated Webcam" and `1` "Cámara 2" and is shown; for no camera nothing changes;
and after `init()` with the sample devices, once the user picked the second option,
`startCamera` first calls `new LocalVideoStream` with the second camera. -/
theorem setupCameraSelector_options_witness :
    (setupCameraSelector sampleCameras samplePage).cameraSelect.options.length = 2 ∧
    (setupCameraSelector sampleCameras samplePage).cameraSelect.options[1]?
      = some ⟨toString 1, if ("" : String) ≠ "" then "" else "Cámara " ++ toString (1 + 1)⟩ ∧
    "hidden" ∉ (setupCameraSelector sampleCameras samplePage).cameraSelectorClassList ∧
    setupCameraSelector [] samplePage = samplePage ∧
    (∃ camera, sampleCameras[1]? = some camera ∧
      (callsDuring (pickedSecondCamera (Sdk.working sampleCameras sampleMicrophones)).trace
        (startCamera (Sdk.working sampleCameras sampleMicrophones)
          (pickedSecondCamera (Sdk.working sampleCameras sampleMicrophones))).app.trace).head?
        = some ⟨.newLocalVideoStream (some camera),
            (Sdk.working sampleCameras sampleMicrophones).fault
              (pickedSecondCamera (Sdk.working sampleCameras sampleMicrophones)).trace
              (.newLocalVideoStream (some camera))⟩) :=
  have h := (setupCameraSelector_options sampleCameras samplePage).1 (by decide)
  ⟨h.1, h.2.1 1 ⟨"cam-1", ""⟩ rfl, h.2.2.1,
    (setupCameraSelector_options [] samplePage).2.1 (by decide),
    (setupCameraSelector_options sampleCameras samplePage).2.2.1
      (Sdk.working sampleCameras sampleMicrophones)
      (pickedSecondCamera (Sdk.working sampleCameras sampleMicrophones)) 1
      (by decide) (by decide) (by decide) (by decide) (by decide)⟩

theorem stopVideo_of_dispose_never_throws (sdk : Sdk) (hd : sdk.DisposeNeverThrows)
    (s : AzureVideoService) (t : Trace) : (stopVideo sdk s t).result = .ok () := by
  unfold stopVideo catchRethrow stopVideoTry stopVideoStream
  cases hr : s.videoStreamRenderer <;> cases hs : s.localVideoStream <;>
    simp [(hd _).1, (hd _).2, hs]

theorem stopCamera_of_dispose_never_throws (sdk : Sdk) (hd : sdk.DisposeNeverThrows)
    (app : App) :
    (stopCamera sdk app).result = .ok () ∧ (stopCamera sdk app).app.ui.cameraOn = false := by
  have h := stopVideo_of_dispose_never_throws sdk hd app.azureService app.trace
  unfold stopCamera
  revert h
  generalize stopVideo sdk app.azureService app.trace = o
  rcases o with ⟨r, sv, tr⟩
  intro h
  simp only at h
  subst h
  simp

/-- When `startCamera` ends with `cameraOn` true, either it was true before or the
service now holds a stream and a renderer. -/
theorem startCamera_cameraOn (sdk : Sdk) (app : App)
    (h : (startCamera sdk app).app.ui.cameraOn = true) :
    app.ui.cameraOn = true ∨ isVideoActive (startCamera sdk app).app.azureService = true := by
  cases hr : (startVideo sdk (orZero (parseInt app.ui.cameraSelect.value))
      app.azureService app.trace).result with
  | error e =>
    left
    revert h hr
    unfold startCamera
    dsimp only
    generalize startVideo sdk (orZero (parseInt app.ui.cameraSelect.value))
      app.azureService app.trace = o
    rcases o with ⟨r, sv, tr⟩
    intro h hr
    simp only at hr
    subst hr
    simpa using h
  | ok target =>
    right
    obtain ⟨-, -, heq⟩ := startVideo_ok sdk _ _ _ target hr
    unfold startCamera
    dsimp only
    rw [heq]
    simp [isVideoActive]

/-- One event keeps the invariant: the camera is shown as on only while the service holds
a stream and a renderer. -/
theorem dispatch_preserves (sdk : Sdk) (hd : sdk.DisposeNeverThrows) (event : UiEvent)
    (app : App)
    (hinv : app.ui.cameraOn = true → isVideoActive app.azureService = true) :
    (dispatch sdk event app).app.ui.cameraOn = true →
      isVideoActive (dispatch sdk event app).app.azureService = true := by
  cases event with
  | micBtnClick =>
    simpa [dispatch, toggleMicrophone, apply_ite] using hinv
  | cameraBtnClick =>
    unfold dispatch toggleCamera
    cases hon : app.ui.cameraOn with
    | false =>
      simp only [Bool.not_false, if_true]
      intro h
      have key := startCamera_cameraOn sdk app
      revert h key
      generalize startCamera sdk app = r
      rcases r with ⟨res, app1⟩
      cases res with
      | error e =>
        simp only [showError, hon, Bool.false_eq_true, false_or]
        intro h key; exact key h
      | ok u =>
        simp only [hon, Bool.false_eq_true, false_or]
        intro h key; exact key h
    | true =>
      simp only [Bool.not_true, Bool.false_eq_true, if_false]
      obtain ⟨h1, h2⟩ := stopCamera_of_dispose_never_throws sdk hd app
      revert h1 h2
      generalize stopCamera sdk app = r
      rcases r with ⟨res, app1⟩
      intro h1 h2
      simp only at h1 h2
      subst h1
      simp [h2]
  | cameraSelectChange picked =>
    unfold dispatch handleCameraChange
    have hpick : (pickOption picked app.ui).cameraOn = app.ui.cameraOn := by
      unfold pickOption; split <;> rfl
    simp only [hpick]
    cases hon : app.ui.cameraOn with
    | false => simp [hpick, hon]
    | true =>
      simp only [if_true]
      obtain ⟨h1, h2⟩ := stopCamera_of_dispose_never_throws sdk hd
        { app with ui := pickOption picked app.ui }
      revert h1 h2
      generalize stopCamera sdk { app with ui := pickOption picked app.ui } = r
      rcases r with ⟨res, app1⟩
      intro h1 h2
      simp only at h1 h2
      subst h1
      simp only
      intro h
      rcases startCamera_cameraOn sdk app1 h with h3 | h3
      · rw [h2] at h3; simp at h3
      · exact h3

/-- C10. Start from any state with `cameraOn = false` and handle any finite sequence of
clicks on the camera button, changes of the camera drop-down and clicks on the
microphone button, each to completion, with an SDK whose calls may throw at will except
that `dispose` never throws: whenever `cameraOn` is true, `isVideoActive()` is true. -/
theorem cameraOn_implies_video_active (sdk : Sdk) (hd : sdk.DisposeNeverThrows)
    (events : List UiEvent) (app : App) (hoff : app.ui.cameraOn = false) :
    (runEvents sdk events app).ui.cameraOn = true →
      isVideoActive (runEvents sdk events app).azureService = true := by
  have hinv : app.ui.cameraOn = true → isVideoActive app.azureService = true := by
    rw [hoff]; intro h; cases h
  clear hoff
  induction events generalizing app with
  | nil => exact hinv
  | cons event rest ih =>
    unfold runEvents
    rw [List.foldl_cons]
    exact ih _ (dispatch_preserves sdk hd event app hinv)

/-- C10, at a concrete run: with an SDK in which no call throws, after `init()`, a click
that turns the camera on, a change to the second camera and a click on the microphone
button, the camera is shown as on and the video is active. -/
theorem cameraOn_implies_video_active_witness :
    (Sdk.working sampleCameras sampleMicrophones).DisposeNeverThrows ∧
    (init (Sdk.working sampleCameras sampleMicrophones) startApp).app.ui.cameraOn
      = false ∧
    (runEvents (Sdk.working sampleCameras sampleMicrophones)
      [.cameraBtnClick, .cameraSelectChange 1, .micBtnClick]
      (init (Sdk.working sampleCameras sampleMicrophones) startApp).app).ui.cameraOn
      = true ∧
    isVideoActive (runEvents (Sdk.working sampleCameras sampleMicrophones)
      [.cameraBtnClick, .cameraSelectChange 1, .micBtnClick]
      (init (Sdk.working sampleCameras sampleMicrophones) startApp).app).azureService
      = true :=
  have hd : (Sdk.working sampleCameras sampleMicrophones).DisposeNeverThrows :=
    fun _ => ⟨fun _ => rfl, fun _ => rfl⟩
  have hon : (runEvents (Sdk.working sampleCameras sampleMicrophones)
      [.cameraBtnClick, .cameraSelectChange 1, .micBtnClick]
      (init (Sdk.working sampleCameras sampleMicrophones) startApp).app).ui.cameraOn
      = true := by decide
  ⟨hd, by decide, hon, cameraOn_implies_video_active _ hd _ _ (by decide) hon⟩

end VideoTramite
